import Mathlib

/-!
# Trip lifecycle of the ride-dispatch backend (`src/index.js`)

A shallow embedding of the trip handlers of `src/index.js`:

* the values a request body and a table column can hold (`Json`, with `Option Json` for a
  value that may be `undefined`), with the JavaScript operations the handlers apply to them
  (`truthy`, `orElse` for `||`, `sameValueZero` for `Array.prototype.includes`, `toStr`);
* the JSON library (`JsonLib`; `JSON.parse` and `JSON.stringify` are its instance `JsonLib.node`);
* the `trips` table behind the persistence gateway (`Gateway`, `Update`);
* the handlers `acceptTrip`, `startTrip`, `completeTrip`, `updateField`, `assignDriver`,
  `addTrips`, and sequences of requests to them (`TripRequest`, `runAll`);
* the queries by driver email (`acceptedTrips`, `wipTrips`, with `likeMatch` for SQL `LIKE`);
* the `drivers` and `bills` tables (`Record`, `Engine`, `Hasher`) with the handlers `register`,
  `login`, `checkExists`, `createBill` and the controller `registerDriver` of
  `src/controllers/driverController.js`.
-/

namespace RoyalDptxi

/-! ## Values -/

/-- A JSON value: what `bodyParser.json()` puts into `req.body`, what `JSON.parse` returns and
what a column of a row holds (`null` is SQL `NULL`). A number is modelled by an integer. -/
inductive Json where
  | null : Json
  | bool (b : Bool) : Json
  | num (n : Int) : Json
  | str (s : String) : Json
  | arr (xs : List Json) : Json
  | obj (kvs : List (String × Json)) : Json

mutual
/-- Structural equality of two JSON values, as a boolean. -/
def Json.beq : Json → Json → Bool
  | .null, .null => true
  | .bool a, .bool b => decide (a = b)
  | .num a, .num b => decide (a = b)
  | .str a, .str b => decide (a = b)
  | .arr xs, .arr ys => Json.beqList xs ys
  | .obj xs, .obj ys => Json.beqKvs xs ys
  | _, _ => false
/-- Structural equality of two lists of JSON values. -/
def Json.beqList : List Json → List Json → Bool
  | [], [] => true
  | x :: xs, y :: ys => Json.beq x y && Json.beqList xs ys
  | _, _ => false
/-- Structural equality of the members of two JSON objects. -/
def Json.beqKvs : List (String × Json) → List (String × Json) → Bool
  | [], [] => true
  | (k, x) :: xs, (l, y) :: ys => decide (k = l) && Json.beq x y && Json.beqKvs xs ys
  | _, _ => false
end

mutual
theorem Json.beq_iff : ∀ a b : Json, Json.beq a b = true ↔ a = b
  | .null, b => by cases b <;> simp [Json.beq]
  | .bool a, b => by cases b <;> simp [Json.beq]
  | .num a, b => by cases b <;> simp [Json.beq]
  | .str a, b => by cases b <;> simp [Json.beq]
  | .arr xs, b => by
    cases b <;> simp [Json.beq]
    exact Json.beqList_iff xs _
  | .obj xs, b => by
    cases b <;> simp [Json.beq]
    exact Json.beqKvs_iff xs _
theorem Json.beqList_iff : ∀ a b : List Json, Json.beqList a b = true ↔ a = b
  | [], b => by cases b <;> simp [Json.beqList]
  | x :: xs, b => by
    cases b with
    | nil => simp [Json.beqList]
    | cons y ys => simp [Json.beqList, Json.beq_iff x y, Json.beqList_iff xs ys]
theorem Json.beqKvs_iff : ∀ a b : List (String × Json), Json.beqKvs a b = true ↔ a = b
  | [], b => by cases b <;> simp [Json.beqKvs]
  | (k, x) :: xs, b => by
    cases b with
    | nil => simp [Json.beqKvs]
    | cons y ys =>
      obtain ⟨l, y⟩ := y
      simp [Json.beqKvs, Json.beq_iff x y, Json.beqKvs_iff xs ys, and_assoc]
end

instance : DecidableEq Json := fun a b => decidable_of_iff _ (Json.beq_iff a b)

instance : Inhabited Json := ⟨Json.null⟩

/-- JavaScript truthiness (`!x`, `x || d`, `x && y`): `undefined` (here `none`), `null`, `false`,
`0` and the empty string are falsy, every other value is truthy. -/
def truthy : Option Json → Bool
  | none => false
  | some .null => false
  | some (.bool b) => b
  | some (.num n) => decide (n ≠ 0)
  | some (.str s) => decide (s ≠ "")
  | some (.arr _) => true
  | some (.obj _) => true

/-- The JavaScript expression `x || d`: `x` when `x` is truthy, else `d`. -/
def orElse (x : Option Json) (d : Json) : Option Json :=
  if truthy x then x else some d

/-- The comparison `Array.prototype.includes` makes (SameValueZero). Primitive values are compared
by value. Arrays and objects are compared by reference: the value searched for comes from the
request body and the elements come from another `JSON.parse`, so they are never the same object. -/
def sameValueZero : Option Json → Option Json → Bool
  | none, none => true
  | some .null, some .null => true
  | some (.bool a), some (.bool b) => decide (a = b)
  | some (.num a), some (.num b) => decide (a = b)
  | some (.str a), some (.str b) => decide (a = b)
  | _, _ => false

/-- The method `Array.prototype.includes`. -/
def includes (xs : List (Option Json)) (x : Option Json) : Bool :=
  xs.any fun y => sameValueZero y x

mutual
/-- JavaScript `ToString` of a JSON value. -/
def Json.toStr : Json → String
  | .null => "null"
  | .bool b => if b then "true" else "false"
  | .num n => toString n
  | .str s => s
  | .arr xs => Json.joinStr xs
  | .obj _ => "[object Object]"
/-- The method `Array.prototype.join` with the separator `,`. -/
def Json.joinStr : List Json → String
  | [] => ""
  | [x] => Json.elemStr x
  | x :: y :: r => Json.elemStr x ++ "," ++ Json.joinStr (y :: r)
/-- The text `join` writes for one element: nothing for `null`, else its `ToString`. -/
def Json.elemStr : Json → String
  | .null => ""
  | .bool b => if b then "true" else "false"
  | .num n => toString n
  | .str s => s
  | .arr xs => Json.joinStr xs
  | .obj _ => "[object Object]"
end

/-- JavaScript `ToString` of a value that may be `undefined`. -/
def toStr : Option Json → String
  | none => "undefined"
  | some v => v.toStr

/-- Whether the list `p` starts the list `s`. -/
def startsWith : List Char → List Char → Bool
  | [], _ => true
  | _ :: _, [] => false
  | a :: p, b :: s => decide (a = b) && startsWith p s

/-- Whether `p` occurs in `s` as a contiguous run of characters. -/
def isSubstr (p : List Char) : List Char → Bool
  | [] => startsWith p []
  | c :: s => startsWith p (c :: s) || isSubstr p s

/-- The method `String.prototype.includes`: the argument is converted by `ToString` and looked for
as a contiguous substring. -/
def strIncludes (s : String) (x : Option Json) : Bool :=
  isSubstr (toStr x).toList s.toList

/-- A request body after `bodyParser.json()`: the members of the object. -/
abbrev Body := List (String × Json)

/-- Reading a property of the request body, as the destructuring of `req.body` does: `none` is
`undefined`. -/
def Body.get (b : Body) (k : String) : Option Json :=
  match b with
  | [] => none
  | (k', v) :: r => if k' = k then some v else Body.get r k

/-! ## The JSON library -/

/-- The two functions of the JavaScript JSON library the handlers call. `parse` gives `none` when
`JSON.parse` throws; `stringify` is only called on arrays and strings, for which
`JSON.stringify` returns a text. -/
structure JsonLib where
  parse : String → Option Json
  stringify : Json → String

/-- The text `JSON.stringify` writes for an array some of whose elements may be `undefined`:
an `undefined` element is written as `null`. -/
def JsonLib.stringifyArray (J : JsonLib) (xs : List (Option Json)) : String :=
  J.stringify (.arr (xs.map fun x => x.getD .null))

/-! ### The JSON library of the JavaScript runtime -/

namespace JSON

/-- The character `"`. -/
def dquote : Char := Char.ofNat 34

/-- The character `\`. -/
def bslash : Char := Char.ofNat 92

/-- The lower-case hexadecimal digit of a number below 16. -/
def hexDigit (n : Nat) : Char :=
  if n < 10 then Char.ofNat (48 + n) else Char.ofNat (87 + n)

/-- The text `JSON.stringify` writes for one character of a string (QuoteJSONString). -/
def quoteChar (c : Char) : List Char :=
  if c = dquote then [bslash, dquote]
  else if c = bslash then [bslash, bslash]
  else if c = Char.ofNat 8 then [bslash, 'b']
  else if c = Char.ofNat 12 then [bslash, 'f']
  else if c = Char.ofNat 10 then [bslash, 'n']
  else if c = Char.ofNat 13 then [bslash, 'r']
  else if c = Char.ofNat 9 then [bslash, 't']
  else if c.toNat < 32 then
    [bslash, 'u', '0', '0', hexDigit (c.toNat / 16), hexDigit (c.toNat % 16)]
  else [c]

/-- The text `JSON.stringify` writes for a string. -/
def quote (s : String) : List Char :=
  dquote :: (s.toList.flatMap quoteChar ++ [dquote])

mutual
/-- The characters `JSON.stringify` writes for a JSON value. -/
def write : Json → List Char
  | .null => "null".toList
  | .bool b => if b then "true".toList else "false".toList
  | .num n => (toString n).toList
  | .str s => quote s
  | .arr xs => '[' :: (writeElems xs ++ [']'])
  | .obj kvs => Char.ofNat 123 :: (writeMembers kvs ++ [Char.ofNat 125])
/-- The elements of an array, separated by commas. -/
def writeElems : List Json → List Char
  | [] => []
  | [x] => write x
  | x :: y :: r => write x ++ ',' :: writeElems (y :: r)
/-- The members of an object, separated by commas. -/
def writeMembers : List (String × Json) → List Char
  | [] => []
  | [(k, x)] => quote k ++ ':' :: write x
  | (k, x) :: y :: r => quote k ++ ':' :: (write x ++ ',' :: writeMembers (y :: r))
end

/-- The function `JSON.stringify` on a JSON value. -/
def stringify (v : Json) : String := String.mk (write v)

/-- JSON white space. -/
def isWs (c : Char) : Bool :=
  c = ' ' || c = Char.ofNat 9 || c = Char.ofNat 10 || c = Char.ofNat 13

/-- Dropping leading white space. -/
def skipWs : List Char → List Char
  | [] => []
  | c :: cs => if isWs c then skipWs cs else c :: cs

/-- Reading a run of decimal digits. -/
def readDigits (acc : Nat) : List Char → Nat × List Char
  | [] => (acc, [])
  | c :: cs => if c.isDigit then readDigits (acc * 10 + (c.toNat - 48)) cs else (acc, c :: cs)

/-- Reading a JSON integer without its sign: `0`, or digits that do not start with `0`. -/
def readNat : List Char → Option (Nat × List Char)
  | [] => none
  | c :: cs =>
    if c = '0' then some (0, cs)
    else if c.isDigit then some (readDigits 0 (c :: cs))
    else none

/-- The value of a hexadecimal digit. -/
def hexVal (c : Char) : Option Nat :=
  if c.isDigit then some (c.toNat - 48)
  else if 'a'.toNat ≤ c.toNat ∧ c.toNat ≤ 'f'.toNat then some (c.toNat - 87)
  else if 'A'.toNat ≤ c.toNat ∧ c.toNat ≤ 'F'.toNat then some (c.toNat - 55)
  else none

/-- The character a one-letter escape stands for. -/
def unescape (c : Char) : Option Char :=
  if c = dquote then some dquote
  else if c = bslash then some bslash
  else if c = '/' then some '/'
  else if c = 'b' then some (Char.ofNat 8)
  else if c = 'f' then some (Char.ofNat 12)
  else if c = 'n' then some (Char.ofNat 10)
  else if c = 'r' then some (Char.ofNat 13)
  else if c = 't' then some (Char.ofNat 9)
  else none

/-- Reading a string after its opening quote, up to and including the closing quote. A `\u`
escape of a surrogate code unit is not read. -/
def readString : Nat → List Char → Option (List Char × List Char)
  | 0, _ => none
  | _ + 1, [] => none
  | fuel + 1, c :: cs =>
    if c = dquote then some ([], cs)
    else if c = bslash then
      match cs with
      | [] => none
      | e :: r =>
        if e = 'u' then
          match r with
          | a :: b :: c :: d :: r' =>
            match hexVal a, hexVal b, hexVal c, hexVal d with
            | some a, some b, some c, some d =>
              let n := ((a * 16 + b) * 16 + c) * 16 + d
              if 0xD800 ≤ n ∧ n ≤ 0xDFFF then none
              else (readString fuel r').map fun p => (Char.ofNat n :: p.1, p.2)
            | _, _, _, _ => none
          | _ => none
        else
          match unescape e with
          | some x => (readString fuel r).map fun p => (x :: p.1, p.2)
          | none => none
    else if c.toNat < 32 then none
    else (readString fuel cs).map fun p => (c :: p.1, p.2)

mutual
/-- Reading one JSON value, with the rest of the input. -/
def readValue : Nat → List Char → Option (Json × List Char)
  | 0, _ => none
  | fuel + 1, cs =>
    match skipWs cs with
    | [] => none
    | c :: r =>
      if c = '[' then
        match skipWs r with
        | [] => none
        | d :: r' => if d = ']' then some (.arr [], r') else
          (readElems fuel (d :: r')).map fun p => (.arr p.1, p.2)
      else if c = Char.ofNat 123 then
        match skipWs r with
        | [] => none
        | d :: r' => if d = Char.ofNat 125 then some (.obj [], r') else
          (readMembers fuel (d :: r')).map fun p => (.obj p.1, p.2)
      else if c = dquote then
        (readString (r.length + 1) r).map fun p => (.str (String.mk p.1), p.2)
      else if c = '-' then
        (readNat r).map fun p => (.num (-(p.1 : Int)), p.2)
      else if c.isDigit then
        (readNat (c :: r)).map fun p => (.num (p.1 : Int), p.2)
      else if startsWith "null".toList (c :: r) then some (.null, (c :: r).drop 4)
      else if startsWith "true".toList (c :: r) then some (.bool true, (c :: r).drop 4)
      else if startsWith "false".toList (c :: r) then some (.bool false, (c :: r).drop 5)
      else none
/-- Reading the elements of an array up to and including the closing bracket. -/
def readElems : Nat → List Char → Option (List Json × List Char)
  | 0, _ => none
  | fuel + 1, cs =>
    match readValue fuel cs with
    | none => none
    | some (v, r) =>
      match skipWs r with
      | [] => none
      | d :: r' =>
        if d = ']' then some ([v], r')
        else if d = ',' then (readElems fuel r').map fun p => (v :: p.1, p.2)
        else none
/-- Reading the members of an object up to and including the closing brace. -/
def readMembers : Nat → List Char → Option (List (String × Json) × List Char)
  | 0, _ => none
  | fuel + 1, cs =>
    match skipWs cs with
    | [] => none
    | q :: r =>
      if q = dquote then
        match readString (r.length + 1) r with
        | none => none
        | some (k, r₁) =>
          match skipWs r₁ with
          | [] => none
          | colon :: r₂ =>
            if colon = ':' then
              match readValue fuel r₂ with
              | none => none
              | some (v, r₃) =>
                match skipWs r₃ with
                | [] => none
                | d :: r₄ =>
                  if d = Char.ofNat 125 then some ([(String.mk k, v)], r₄)
                  else if d = ',' then
                    (readMembers fuel r₄).map fun p => ((String.mk k, v) :: p.1, p.2)
                  else none
            else none
      else none
end

/-- The function `JSON.parse` on a text: `none` when it throws a `SyntaxError`. A number with a
fraction or an exponent, which the integer model of numbers cannot hold, is not read. -/
def parse (s : String) : Option Json :=
  match readValue (s.length + 1) s.toList with
  | none => none
  | some (v, r) => if skipWs r = [] then some v else none

end JSON

/-- The JSON library of the JavaScript runtime. -/
def JsonLib.node : JsonLib := ⟨JSON.parse, JSON.stringify⟩

/-! ## The trips table -/

/-- A row of the `trips` table: the value of each column, by the name of the column. -/
abbrev Row := String → Json

/-- The `trips` table: its rows, in the order a `SELECT` returns them. -/
abbrev Table := List Row

/-- Modelled from the spec: the Persistence Gateway (`./config/db`, which is not among the
sources) is an ordinary relational table store reached through parameterized queries. It carries
out every statement (the callback's `err` is `null`), keeps a bound value as it is bound, and
reports as `affectedRows` the number of rows the `WHERE` clause matches. How the engine compares
the `id` column with the parameter bound in `WHERE id = ?` (the number `1` with the route text
`1`, say) is left open: it is the field `idEq`, applied to the column value and the parameter. -/
structure Gateway where
  idEq : Json → Json → Bool

/-- The value the gateway binds for a JavaScript value: `undefined` is bound as `NULL`. -/
def sqlParam (x : Option Json) : Json := x.getD .null

/-- Whether `WHERE id = ?` with the parameter `p` selects the row `r`. -/
def Gateway.selects (G : Gateway) (p : Json) (r : Row) : Bool := G.idEq (r "id") p

/-- `SELECT … FROM trips WHERE id = ?`: the rows selected, in table order. -/
def Gateway.select (G : Gateway) (p : Json) (t : Table) : Table := t.filter (G.selects p)

/-- The statement `UPDATE trips SET c₁ = ?, …, cₙ = ? WHERE id = ?` with its bound values. -/
structure Update where
  sets : List (String × Json)
  whereId : Json
deriving DecidableEq

/-- A row after the assignments of a `SET` clause, carried out from left to right. -/
def Row.assign (r : Row) : List (String × Json) → Row
  | [] => r
  | (c, v) :: rest => Row.assign (Function.update r c v) rest

/-- The table after an `UPDATE`: the rows the `WHERE` clause selects are assigned to, the others
are kept. -/
def Update.run (G : Gateway) (u : Update) (t : Table) : Table :=
  t.map fun r => if G.selects u.whereId r then r.assign u.sets else r

/-- The `affectedRows` an `UPDATE` reports. -/
def Update.affectedRows (G : Gateway) (u : Update) (t : Table) : Nat :=
  (G.select u.whereId t).length

/-- The response of a handler: `res.status(status).json(body)`. -/
structure Response where
  status : Nat
  body : Json
deriving DecidableEq

/-- The response `res.status(status).json(…)` whose body has the one member `message`. -/
def Response.message (status : Nat) (message : String) : Response :=
  ⟨status, .obj [("message", .str message)]⟩

/-- What a handler does for one request: the response it sends (`none` when an uncaught
`TypeError` ends the callback before any response) and the write statements it issues, in
order. -/
structure Outcome where
  response : Option Response
  writes : List Update
deriving DecidableEq

/-- The table after the writes of an outcome. -/
def Outcome.trips (G : Gateway) (o : Outcome) (t : Table) : Table :=
  o.writes.foldl (fun t u => u.run G t) t

/-! ## The handlers -/

/-- The array `currentAccepted` of `PUT /api/trips/:id/accept`, when `JSON.parse` returned the
array `xs`, after `if (!currentAccepted.includes(driverEmail)) currentAccepted.push(driverEmail)`. -/
def pushIfAbsent (xs : List (Option Json)) (driverEmail : Option Json) : List (Option Json) :=
  if !includes xs driverEmail then xs ++ [driverEmail] else xs

/-- The value of `currentAccepted` of `PUT /api/trips/:id/accept` before the duplicate check:
the empty array, replaced by what `JSON.parse` returns for the `acceptedDrivers` of the first
row selected when there is such a row, its `acceptedDrivers` is truthy and the parse does not
throw. -/
def currentAccepted (J : JsonLib) (results : Table) : Json :=
  match results with
  | [] => .arr []
  | r :: _ =>
    if truthy (some (r "acceptedDrivers")) then
      match J.parse (r "acceptedDrivers").toStr with
      | some v => v
      | none => .arr []
    else .arr []

/-- The handler of `PUT /api/trips/:id/accept` (`src/index.js`, lines 420-458). -/
def acceptTrip (J : JsonLib) (G : Gateway) (tripId : String) (body : Body) (trips : Table) :
    Outcome :=
  let driverEmail := body.get "driverEmail"
  let results := G.select (.str tripId) trips
  let accept (updatedAcceptedDrivers : String) : Outcome :=
    ⟨some (Response.message 200 "Trip accepted successfully"),
      [⟨[("acceptedDrivers", .str updatedAcceptedDrivers), ("status", .str "accept")],
        .str tripId⟩]⟩
  match currentAccepted J results with
  | .arr xs => accept (J.stringifyArray (pushIfAbsent (xs.map some) driverEmail))
  | .str s =>
    -- `String.prototype.includes`; a string has no `push`
    if !strIncludes s driverEmail then ⟨none, []⟩ else accept (J.stringify (.str s))
  | _ => ⟨none, []⟩

/-- The handler of `PUT /api/trips/:id/start` (`src/index.js`, lines 484-502). -/
def startTrip (G : Gateway) (tripId : String) (trips : Table) : Outcome :=
  let u : Update := ⟨[("status", .str "WIP")], .str tripId⟩
  if u.affectedRows G trips = 0 then ⟨some (Response.message 404 "Trip not found"), [u]⟩
  else ⟨some (Response.message 200 "Trip started successfully"), [u]⟩

/-- The handler of `PUT /api/trips/:id/complete` (`src/index.js`, lines 249-306); `now` is what
`NOW()` gives in the store. -/
def completeTrip (now : Json) (tripId : String) (body : Body) : Outcome :=
  let startMeter := body.get "startMeter"
  let endMeter := body.get "endMeter"
  let luggage := body.get "luggage"
  let pet := body.get "pet"
  let toll := body.get "toll"
  let hills := body.get "hills"
  let totalKm := body.get "totalKm"
  let finalKm := body.get "finalKm"
  let finalBill := body.get "finalBill"
  if !truthy startMeter || !truthy endMeter || !truthy finalBill then
    ⟨some (Response.message 400 "Required fields are missing"), []⟩
  else
    ⟨some ⟨200, .obj [("message", .str "Trip marked as completed successfully"),
        ("tripId", .str tripId), ("finalBill", finalBill.getD .null)]⟩,
      [⟨[("startMeter", sqlParam startMeter),
         ("endMeter", sqlParam endMeter),
         ("luggage", sqlParam (orElse luggage (.num 0))),
         ("pet", sqlParam (orElse pet (.num 0))),
         ("toll", sqlParam (orElse toll (.num 0))),
         ("hills", sqlParam (orElse hills (.num 0))),
         ("totalKm", sqlParam (orElse totalKm (.num 0))),
         ("finalKm", sqlParam (orElse finalKm (.num 0))),
         ("finalBill", sqlParam finalBill),
         ("status", .str "completed"),
         ("created_at", now)],
        .str tripId⟩]⟩

/-- The array `allowedFields` of `PUT /api/trips/update-field`. -/
def allowedFields : List String := ["startMeter", "endMeter", "luggage", "pet", "toll", "hills"]

/-- The handler of `PUT /api/trips/update-field` (`src/index.js`, lines 522-540). The column of
the statement is the text the template puts for `field`. -/
def updateField (body : Body) : Outcome :=
  let tripId := body.get "tripId"
  let field := body.get "field"
  let value := body.get "value"
  if !truthy tripId || !truthy field then
    ⟨some (Response.message 400 "Missing tripId or field"), []⟩
  else if !includes (allowedFields.map fun f => some (.str f)) field then
    ⟨some (Response.message 400 "Invalid field name"), []⟩
  else
    ⟨some (Response.message 200 "Trip updated successfully"),
      [⟨[(toStr field, sqlParam value)], sqlParam tripId⟩]⟩

/-- The first `n` characters of a text (`slice(0, n)`). -/
def slice0 (s : String) (n : Nat) : String := String.mk (s.toList.take n)

/-- Replacing the first `a` of a list of characters with `b`. -/
def replaceFirstChar (a b : Char) : List Char → List Char
  | [] => []
  | c :: cs => if c = a then b :: cs else c :: replaceFirstChar a b cs

/-- The method `replace` with a one-character pattern: the first occurrence is replaced. -/
def replaceFirst (s : String) (a b : Char) : String := String.mk (replaceFirstChar a b s.toList)

/-- The handler of `PUT /api/trips/assign-driver` (`src/index.js`, lines 570-600); `isoNow` is
what `new Date().toISOString()` gives. -/
def assignDriver (G : Gateway) (isoNow : String) (body : Body) (trips : Table) : Outcome :=
  let tripId := body.get "tripId"
  let driverEmail := body.get "driverEmail"
  if !truthy tripId || !truthy driverEmail then
    ⟨some (Response.message 400 "tripId and driverEmail are required"), []⟩
  else
    let assignedAt := replaceFirst (slice0 isoNow 19) 'T' ' '
    let u : Update :=
      ⟨[("driverEmail", sqlParam driverEmail), ("status", .str "accept"),
        ("assignedAt", .str assignedAt)], sqlParam tripId⟩
    if u.affectedRows G trips = 0 then ⟨some (Response.message 404 "Trip not found"), [u]⟩
    else ⟨some (Response.message 200 "Driver assigned successfully"), [u]⟩

/-- A gateway for worked examples: the `id` column and the parameter are compared by their
text, so that the number `1` of the column is the route text `1`. -/
def Gateway.byText : Gateway := ⟨fun a b => decide (a.toStr = b.toStr)⟩

/-- A trip with the id `n` and `NULL` in every other column, for worked examples. -/
def Row.blank (n : Int) : Row := fun c => if c = "id" then .num n else .null

/-- A trip with the id `n`, the text `text` in `acceptedDrivers` and `NULL` in every other
column, for worked examples. -/
def Row.withAccepted (n : Int) (text : String) : Row :=
  fun c => if c = "id" then .num n else if c = "acceptedDrivers" then .str text else .null

/-- The library reads back the array `xs` from the text it writes for it, and that text is not
empty: `JSON.parse(JSON.stringify(xs))` is `xs` again. -/
def JsonLib.ReadsBack (J : JsonLib) (xs : List Json) : Prop :=
  J.stringify (.arr xs) ≠ "" ∧ J.parse (J.stringify (.arr xs)) = some (.arr xs)

/-- The `trips` table after `PUT /api/trips/:id/accept`. -/
def acceptTable (J : JsonLib) (G : Gateway) (tripId : String) (body : Body) (trips : Table) :
    Table :=
  (acceptTrip J G tripId body trips).trips G trips

/-- The statement `UPDATE trips SET acceptedDrivers = ?, status = ? WHERE id = ?` of the accept
handler, with the text written and the id. -/
def acceptUpdate (text tripId : String) : Update :=
  ⟨[("acceptedDrivers", .str text), ("status", .str "accept")], .str tripId⟩

/-! ## Creating a trip, and sequences of requests -/

/-- The columns the `INSERT` of `POST /api/trips/add-trips` names, with the values it binds
(`src/index.js`, lines 608-633); `now` is what `new Date()` is bound as. -/
def addTripsValues (now : Json) (trip : Body) : List (String × Json) :=
  [("pickupLocation", sqlParam (trip.get "pickupLocation")),
   ("dropLocation", sqlParam (trip.get "dropLocation")),
   ("tripType", sqlParam (trip.get "tripType")),
   ("car", sqlParam (trip.get "car")),
   ("pickupDate", sqlParam (trip.get "pickupDate")),
   ("pickupTime", sqlParam (trip.get "pickupTime")),
   ("days", sqlParam (orElse (trip.get "days") (.num 0))),
   ("kmPrice", sqlParam (orElse (trip.get "kmPrice") (.num 0))),
   ("km", sqlParam (orElse (trip.get "km") (.num 0))),
   ("betta", sqlParam (orElse (trip.get "betta") (.num 0))),
   ("phone", sqlParam (trip.get "phone")),
   ("state", sqlParam (trip.get "state")),
   ("customerName", sqlParam (trip.get "customerName")),
   ("customerRemark", sqlParam (trip.get "customerRemark")),
   ("adult", sqlParam (orElse (trip.get "adult") (.num 0))),
   ("child", sqlParam (orElse (trip.get "child") (.num 0))),
   ("luggage", sqlParam (orElse (trip.get "luggage") (.num 0))),
   ("customerCurrentLocation", sqlParam (trip.get "customerCurrentLocation")),
   ("created_at", sqlParam (orElse (trip.get "created_at") now))]

/-- Modelled from the spec: the row an `INSERT INTO trips` adds. The schema of the table is not
among the sources: `defaults` gives what a column holds when the statement does not name it, and
`insertId` is the id the store gives the row. -/
def insertedRow (defaults : Row) (insertId : Int) (values : List (String × Json)) : Row :=
  Row.assign (Function.update defaults "id" (.num insertId)) values

/-- The handler of `POST /api/trips/add-trips` (`src/index.js`, lines 603-640): the response and
the table with the new row at its end. -/
def addTrips (defaults : Row) (insertId : Int) (now : Json) (trip : Body) (trips : Table) :
    Response × Table :=
  (⟨201, .obj [("message", .str "Trip stored successfully"), ("tripId", .num insertId)]⟩,
    trips ++ [insertedRow defaults insertId (addTripsValues now trip)])

/-- A request to one of the trip handlers, with what the handler takes from its surroundings
(the id the store gives, the clock). -/
inductive TripRequest where
  | create (insertId : Int) (now : Json) (trip : Body) : TripRequest
  | accept (tripId : String) (body : Body) : TripRequest
  | assign (isoNow : String) (body : Body) : TripRequest
  | start (tripId : String) : TripRequest
  | patch (body : Body) : TripRequest
  | complete (now : Json) (tripId : String) (body : Body) : TripRequest

/-- The `trips` table after the handler of a request has run on it. -/
def TripRequest.run (J : JsonLib) (G : Gateway) (defaults : Row) : TripRequest → Table → Table
  | .create insertId now trip, t => (addTrips defaults insertId now trip t).2
  | .accept tripId body, t => acceptTable J G tripId body t
  | .assign isoNow body, t => (assignDriver G isoNow body t).trips G t
  | .start tripId, t => (startTrip G tripId t).trips G t
  | .patch body, t => (updateField body).trips G t
  | .complete now tripId body, t => (completeTrip now tripId body).trips G t

/-- The `trips` table after a sequence of requests, from the empty table. -/
def runAll (J : JsonLib) (G : Gateway) (defaults : Row) (reqs : List TripRequest) : Table :=
  reqs.foldl (fun t q => q.run J G defaults t) []

/-- Whether a request is a Field Patch that names the field `c`. -/
def TripRequest.patches (c : String) : TripRequest → Bool
  | .patch body => decide (body.get "field" = some (.str c))
  | _ => false

/-- Whether a request applies accept-intent, administrative assignment or start to the id of a
trip of the table whose status is `completed`. -/
def reopens (G : Gateway) (q : TripRequest) (t : Table) : Bool :=
  match q with
  | .accept tripId _ =>
    t.any fun r => G.selects (.str tripId) r && decide (r "status" = .str "completed")
  | .assign _ body =>
    t.any fun r =>
      G.selects (sqlParam (body.get "tripId")) r && decide (r "status" = .str "completed")
  | .start tripId =>
    t.any fun r => G.selects (.str tripId) r && decide (r "status" = .str "completed")
  | _ => false

/-- Whether no request of a sequence, run from the table `t`, reopens a completed trip. -/
def neverReopens (J : JsonLib) (G : Gateway) (defaults : Row) : List TripRequest → Table → Bool
  | [], _ => true
  | q :: qs, t => !reopens G q t && neverReopens J G defaults qs (q.run J G defaults t)

/-- The metered and completion columns of a trip. -/
def meteredColumns : List String :=
  ["startMeter", "endMeter", "luggage", "pet", "toll", "hills", "totalKm", "finalKm", "finalBill"]

/-- A schema in which every column that an `INSERT` does not name is `NULL`, for worked
examples. -/
def Row.nulls : Row := fun _ => .null

/-! ## The queries by driver email -/

/-- Modelled from the spec: the SQL operator `LIKE` of the store, on the characters of the
pattern and of the text: `%` stands for any run of characters, `_` for any one character, and
the character after a `\` stands for itself. Characters are compared exactly. -/
def likeMatch : List Char → List Char → Bool
  | [], s => s.isEmpty
  | c :: p, s =>
    if c = '%' then s.tails.any (likeMatch p)
    else if c = '_' then
      match s with
      | [] => false
      | _ :: t => likeMatch p t
    else if c = JSON.bslash then
      match p with
      | [] => decide (s = [JSON.bslash])
      | e :: p' =>
        match s with
        | [] => false
        | d :: t => decide (d = e) && likeMatch p' t
    else
      match s with
      | [] => false
      | d :: t => decide (d = c) && likeMatch p t

/-- The condition `column LIKE ?` on a column value: never true of `NULL`, else `LIKE` on the text
of the value. -/
def sqlLike (v : Json) (pattern : String) : Bool :=
  match v with
  | .null => false
  | v => likeMatch pattern.toList v.toStr.toList

/-- The condition `status = ?` with a text bound: the column holds exactly that text. -/
def statusIs (r : Row) (status : String) : Bool := decide (r "status" = .str status)

/-- What a query handler sends: the rows of `res.status(status).json(results)`, or a refusal. -/
inductive Listing where
  | rows (status : Nat) (results : Table) : Listing
  | refused (response : Response) : Listing

/-- The rows a listing sends (none when it is a refusal). -/
def Listing.results : Listing → Table
  | .rows _ results => results
  | .refused _ => []

/-- The status code of a listing. -/
def Listing.status : Listing → Nat
  | .rows status _ => status
  | .refused response => response.status

/-- The handler of `GET /api/trips/accepted/:driverEmail` (`src/index.js`, lines 462-481). -/
def acceptedTrips (driverEmail : String) (trips : Table) : Listing :=
  if !truthy (some (.str driverEmail)) then
    .refused (Response.message 400 "driverEmail is required")
  else
    .rows 200 (trips.filter fun r =>
      statusIs r "accept" && sqlLike (r "driverEmail") ("%" ++ driverEmail ++ "%"))

/-- The handler of `GET /api/trips/wip/:driverEmail` (`src/index.js`, lines 505-519). -/
def wipTrips (driverEmail : String) (trips : Table) : Listing :=
  .rows 200 (trips.filter fun r =>
    statusIs r "WIP" && sqlLike (r "driverEmail") ("%" ++ driverEmail ++ "%"))

/-- The words of the specification: the stored value contains `x` literally as a contiguous
substring (a column that is `NULL` holds no text). -/
def containsLiterally (v : Json) (x : String) : Bool :=
  match v with
  | .null => false
  | v => isSubstr x.toList v.toStr.toList

/-- The characters `LIKE` does not take literally. -/
def likeSpecial (c : Char) : Bool := c = '%' || c = '_' || c = JSON.bslash

/-- A trip with the id `n`, a status and a `driverEmail`, and `NULL` in every other column, for
worked examples. -/
def Row.assigned (n : Int) (status driverEmail : String) : Row :=
  fun c => if c = "id" then .num n else if c = "status" then .str status
    else if c = "driverEmail" then .str driverEmail else .null

/-! ## Drivers and bills -/

/-- A row of the `drivers` or of the `bills` table, as the object the gateway hands to the
handler: a column missing from the list reads as `undefined`. -/
abbrev Record := List (String × Json)

/-- The value of a column of a record for the store: `NULL` when the record has no such column. -/
def Record.col (r : Record) (c : String) : Json := sqlParam (Body.get r c)

/-- JavaScript `===` between two values that are not one and the same object: primitive values
are compared by value, and an array or object is equal to no other. -/
def strictEq : Option Json → Option Json → Bool
  | none, none => true
  | some .null, some .null => true
  | some (.bool a), some (.bool b) => decide (a = b)
  | some (.num a), some (.num b) => decide (a = b)
  | some (.str a), some (.str b) => decide (a = b)
  | _, _ => false

/-- The object a literal with the given members is sent as: a member whose value is `undefined`
is left out (`res.json`, `jwt.sign`). -/
def jsObject (members : List (String × Option Json)) : Json :=
  .obj (members.filterMap fun m => m.2.map fun v => (m.1, v))

/-- Modelled from the spec: how the store compares a column with a bound parameter in
`WHERE column = ?` on the `drivers` table. The engine and the schema are not among the sources,
so the comparison is the field `eq`, applied to the column value and the parameter. -/
structure Engine where
  eq : Json → Json → Bool

/-- An engine for worked examples: `NULL` is equal to nothing, two other values are equal when
their texts are. -/
def Engine.byText : Engine :=
  ⟨fun a b => decide (a ≠ .null) && decide (b ≠ .null) && decide (a.toStr = b.toStr)⟩

/-- Modelled from the spec: the row an `INSERT` adds to `drivers` or `bills`: the id the store
gives, the columns the statement names, and after them what the schema (not among the sources)
gives to the other columns. -/
def insertedRecord (defaults : Record) (insertId : Int) (values : List (String × Json)) :
    Record :=
  ("id", .num insertId) :: (values ++ defaults)

/-- The Password Hasher (`bcryptjs`). `hash password rounds salt` is what `bcrypt.hash` hands to
its callback when it draws `salt`, `none` for an error; `compare` is `bcrypt.compare`, `none`
when its promise is rejected. -/
structure Hasher where
  hash : Option Json → Nat → Nat → Option String
  compare : Option Json → Option Json → Option Bool

/-- The handler of `POST /api/drivers/register` (`src/index.js`, lines 24-71): the response and
the `drivers` table afterwards. -/
def register (H : Hasher) (salt : Nat) (defaults : Record) (insertId : Int) (body : Body)
    (drivers : List Record) : Option Response × List Record :=
  let name := body.get "name"
  let email := body.get "email"
  let phoneNumber := body.get "phoneNumber"
  let password := body.get "password"
  let rcNumber := body.get "rcNumber"
  let fcDate := body.get "fcDate"
  let insuranceNumber := body.get "insuranceNumber"
  let insuranceExpiryDate := body.get "insuranceExpiryDate"
  let drivingLicense := body.get "drivingLicense"
  let drivingLicenseExpiryDate := body.get "drivingLicenseExpiryDate"
  if !truthy name || !truthy email || !truthy phoneNumber || !truthy password then
    (some (Response.message 400 "Required fields are missing"), drivers)
  else
    match H.hash password 10 salt with
    | none => (some (Response.message 500 "Password hashing failed"), drivers)
    | some hashedPassword =>
      (some ⟨201, .obj [("message", .str "Driver registered successfully"),
          ("driverId", .num insertId)]⟩,
        drivers ++ [insertedRecord defaults insertId
          [("name", sqlParam name),
           ("email", sqlParam email),
           ("phone", sqlParam phoneNumber),
           ("password", .str hashedPassword),
           ("rc_number", sqlParam rcNumber),
           ("fc_expiry", sqlParam fcDate),
           ("insurance_number", sqlParam insuranceNumber),
           ("insurance_expiry", sqlParam insuranceExpiryDate),
           ("driving_license", sqlParam drivingLicense),
           ("dl_expiry", sqlParam drivingLicenseExpiryDate)]])

/-- The controller `registerDriver` (`src/controllers/driverController.js`, lines 3-46), which
`src/routes/driverRoutes.js` puts on `POST /register`: the response and the `drivers` table
afterwards. -/
def registerDriver (defaults : Record) (insertId : Int) (body : Body) (drivers : List Record) :
    Option Response × List Record :=
  let name := body.get "name"
  let email := body.get "email"
  let phoneNumber := body.get "phoneNumber"
  let password := body.get "password"
  let rcNumber := body.get "rcNumber"
  let fcDate := body.get "fcDate"
  let insuranceNumber := body.get "insuranceNumber"
  let insuranceExpiryDate := body.get "insuranceExpiryDate"
  let drivingLicense := body.get "drivingLicense"
  let drivingLicenseExpiryDate := body.get "drivingLicenseExpiryDate"
  let aadharNumber := body.get "aadharNumber"
  if !truthy name || !truthy email || !truthy phoneNumber || !truthy password then
    (some (Response.message 400 "Required fields are missing"), drivers)
  else
    (some ⟨201, .obj [("message", .str "Driver registered successfully"),
        ("driverId", .num insertId)]⟩,
      drivers ++ [insertedRecord defaults insertId
        [("name", sqlParam name),
         ("email", sqlParam email),
         ("phoneNumber", sqlParam phoneNumber),
         ("password", sqlParam password),
         ("rcNumber", sqlParam rcNumber),
         ("fcDate", sqlParam fcDate),
         ("insuranceNumber", sqlParam insuranceNumber),
         ("insuranceExpiryDate", sqlParam insuranceExpiryDate),
         ("drivingLicense", sqlParam drivingLicense),
         ("drivingLicenseExpiryDate", sqlParam drivingLicenseExpiryDate),
         ("aadharNumber", sqlParam aadharNumber)]])

/-- The handler of `POST /login` (`src/index.js`, lines 99-126). `sign` is the Credential Issuer:
`jwt.sign` with the secret and the expiry of seven days, as a function of the payload. The
response is `none` when the promise of `bcrypt.compare` is rejected. -/
def login (E : Engine) (H : Hasher) (sign : Json → String) (body : Body)
    (drivers : List Record) : Option Response :=
  let email := body.get "email"
  let password := body.get "password"
  let rows := drivers.filter fun r => E.eq (r.col "email") (sqlParam email)
  match rows with
  | [] => some (Response.message 401 "Invalid email or password")
  | driver :: _ =>
    match H.compare password (Body.get driver "password") with
    | none => none
    | some isMatch =>
      if !isMatch then some (Response.message 401 "Invalid email or password")
      else
        let token := sign (jsObject [("id", Body.get driver "id"), ("email", Body.get driver "email")])
        some ⟨200, jsObject [("token", some (.str token)), ("user", some (.obj driver))]⟩

/-- The handler of `POST /api/drivers/check-exists` (`src/index.js`, lines 74-96). -/
def checkExists (E : Engine) (body : Body) (drivers : List Record) : Response :=
  let email := body.get "email"
  let phoneNumber := body.get "phoneNumber"
  let rcNumber := body.get "rcNumber"
  let insuranceNumber := body.get "insuranceNumber"
  let rows := drivers.filter fun r =>
    E.eq (r.col "email") (sqlParam email) || E.eq (r.col "phone") (sqlParam phoneNumber) ||
    E.eq (r.col "rc_number") (sqlParam rcNumber) ||
    E.eq (r.col "insurance_number") (sqlParam insuranceNumber)
  ⟨200, .obj
    [("email", .bool (rows.any fun r => strictEq (some (r.col "email")) email)),
     ("phoneNumber", .bool (rows.any fun r => strictEq (some (r.col "phone")) phoneNumber)),
     ("rcNumber", .bool (rows.any fun r => strictEq (some (r.col "rc_number")) rcNumber)),
     ("insuranceNumber",
       .bool (rows.any fun r => strictEq (some (r.col "insurance_number")) insuranceNumber))]⟩

/-- The handler of `POST /api/bills` (`src/index.js`, lines 309-364): the response and the
`bills` table afterwards. `now` is what `new Date()` is bound as and `dateOf x` what
`new Date(x)` is bound as. -/
def createBill (dateOf : Json → Json) (now : Json) (defaults : Record) (insertId : Int)
    (data : Body) (bills : List Record) : Response × List Record :=
  if !truthy (data.get "driverEmail") || !truthy (data.get "customerName") ||
      !truthy (data.get "finalBill") then
    (Response.message 400 "Required fields are missing", bills)
  else
    (⟨201, jsObject [("message", some (.str "Bill saved successfully")),
        ("billId", some (.num insertId)), ("tripId", data.get "tripId")]⟩,
      bills ++ [insertedRecord defaults insertId
        [("driverEmail", sqlParam (data.get "driverEmail")),
         ("customerName", sqlParam (data.get "customerName")),
         ("phone", sqlParam (orElse (data.get "phone") .null)),
         ("pickupLocation", sqlParam (orElse (data.get "pickupLocation") .null)),
         ("dropLocation", sqlParam (orElse (data.get "dropLocation") .null)),
         ("pickupDate", sqlParam (orElse (data.get "pickupDate") .null)),
         ("pickupTime", sqlParam (orElse (data.get "pickupTime") .null)),
         ("tripType", sqlParam (orElse (data.get "tripType") .null)),
         ("startMeter", sqlParam (orElse (data.get "startMeter") (.num 0))),
         ("endMeter", sqlParam (orElse (data.get "endMeter") (.num 0))),
         ("totalKm", sqlParam (orElse (data.get "totalKm") (.num 0))),
         ("finalKm", sqlParam (orElse (data.get "finalKm") (.num 0))),
         ("kmPrice", sqlParam (orElse (data.get "kmPrice") (.num 0))),
         ("totalKmPrice", sqlParam (orElse (data.get "totalKmPrice") (.num 0))),
         ("luggageCharge", sqlParam (orElse (data.get "luggageCharge") (.num 0))),
         ("petCharge", sqlParam (orElse (data.get "petCharge") (.num 0))),
         ("tollCharge", sqlParam (orElse (data.get "tollCharge") (.num 0))),
         ("hillsCharge", sqlParam (orElse (data.get "hillsCharge") (.num 0))),
         ("bettaCharge", sqlParam (orElse (data.get "bettaCharge") (.num 0))),
         ("stateCharge", sqlParam (orElse (data.get "stateCharge") (.num 0))),
         ("totalEnteredCharges", sqlParam (orElse (data.get "totalEnteredCharges") (.num 0))),
         ("finalBill", sqlParam (data.get "finalBill")),
         ("createdAt", if truthy (data.get "createdAt") then
           dateOf (sqlParam (data.get "createdAt")) else now)]])

/-- The numeric charge columns of a bill. -/
def numericCharges : List String :=
  ["startMeter", "endMeter", "totalKm", "finalKm", "kmPrice", "totalKmPrice", "luggageCharge",
   "petCharge", "tollCharge", "hillsCharge", "bettaCharge", "stateCharge", "totalEnteredCharges"]

/-- The descriptive columns of a bill. -/
def descriptiveFields : List String :=
  ["phone", "pickupLocation", "dropLocation", "pickupDate", "pickupTime", "tripType"]

/-- The text after the first `$` of a list of characters. -/
def afterDollar : List Char → List Char
  | [] => []
  | c :: cs => if c = '$' then cs else afterDollar cs

/-- A hasher for worked examples, which is not one-way: the hash of a text is the salt, a `$`
and the text, and a text is accepted against the hashes that end in `$` and that text. -/
def Hasher.toy : Hasher where
  hash := fun password _ salt =>
    match password with
    | some (.str p) => some (toString salt ++ "$" ++ p)
    | _ => none
  compare := fun password stored =>
    match password, stored with
    | some (.str p), some (.str h) => some (decide (afterDollar h.toList = p.toList))
    | _, _ => none

/-- A credential issuer for worked examples: the token is the text of the payload. -/
def signToy (payload : Json) : String := JSON.stringify payload

/-! ## Lemmas on the table -/

theorem Row.assign_single (r : Row) (c : String) (v : Json) :
    r.assign [(c, v)] = fun x => if x = c then v else r x := by
  funext x
  simp [Row.assign, Function.update_apply]

theorem Row.assign_three (r : Row) (a b c : String) (x y z : Json) :
    r.assign [(a, x), (b, y), (c, z)] =
      fun k => if k = c then z else if k = b then y else if k = a then x else r k := by
  funext k
  simp only [Row.assign, Function.update_apply]

theorem Row.assign_of_not_mem (sets : List (String × Json)) (r : Row) (c : String)
    (h : c ∉ sets.map Prod.fst) : r.assign sets c = r c := by
  induction sets generalizing r with
  | nil => rfl
  | cons a rest ih =>
    obtain ⟨k, v⟩ := a
    simp only [List.map_cons, List.mem_cons, not_or] at h
    simp only [Row.assign]
    rw [ih _ h.2, Function.update_apply, if_neg h.1]

theorem Gateway.selects_assign (G : Gateway) (p : Json) (sets : List (String × Json)) (r : Row)
    (h : "id" ∉ sets.map Prod.fst) : G.selects p (r.assign sets) = G.selects p r := by
  simp only [Gateway.selects, Row.assign_of_not_mem sets r "id" h]

theorem Gateway.select_run (G : Gateway) (u : Update) (t : Table)
    (h : "id" ∉ u.sets.map Prod.fst) :
    G.select u.whereId (u.run G t) = (G.select u.whereId t).map fun r => r.assign u.sets := by
  induction t with
  | nil => rfl
  | cons r t ih =>
    simp only [Gateway.select, Update.run, List.map_cons] at ih ⊢
    by_cases hr : G.selects u.whereId r = true
    · simp only [hr, if_true, List.filter_cons, G.selects_assign u.whereId u.sets r h,
        List.map_cons, ih]
    · have hf : G.selects u.whereId r = false := by simpa using hr
      simp only [hf, List.filter_cons, Bool.false_eq_true, if_false, ih]

theorem Update.affectedRows_eq_zero (G : Gateway) (u : Update) (t : Table) :
    u.affectedRows G t = 0 ↔ ∀ r ∈ t, G.selects u.whereId r = false := by
  simp [Update.affectedRows, Gateway.select, List.filter_eq_nil_iff]

theorem sameValueZero_str (f : String) (x : Option Json) :
    sameValueZero (some (.str f)) x = true ↔ x = some (.str f) := by
  cases x with
  | none => simp [sameValueZero]
  | some v => cases v <;> simp [sameValueZero, eq_comm]

theorem includes_strings (fs : List String) (x : Option Json) :
    includes (fs.map fun f => some (.str f)) x = true ↔ ∃ f ∈ fs, x = some (.str f) := by
  simp only [includes, List.any_eq_true, List.mem_map]
  constructor
  · rintro ⟨_, ⟨f, hf, rfl⟩, h⟩
    exact ⟨f, hf, (sameValueZero_str f x).mp h⟩
  · rintro ⟨f, hf, h⟩
    exact ⟨_, ⟨f, hf, rfl⟩, (sameValueZero_str f x).mpr h⟩

theorem Outcome.trips_single (G : Gateway) (r : Option Response) (u : Update) (t : Table) :
    Outcome.trips G ⟨r, [u]⟩ t = u.run G t := rfl

theorem sqlParam_orElse (x : Option Json) (d : Json) :
    sqlParam (orElse x d) = if truthy x = true then sqlParam x else d := by
  unfold orElse
  split <;> rfl

theorem truthy_allowedFields (f : String) (hf : f ∈ allowedFields) :
    truthy (some (.str f)) = true := by
  simp only [allowedFields, List.mem_cons, List.mem_singleton, List.not_mem_nil, or_false] at hf
  rcases hf with rfl | rfl | rfl | rfl | rfl | rfl <;> decide

theorem Table.map_eq_self (t : Table) (f : Row → Row) (h : ∀ r ∈ t, f r = r) : t.map f = t := by
  conv_rhs => rw [← List.map_id t]
  exact List.map_congr_left fun r hr => by simp [h r hr]

theorem sameValueZero_some_str (y : Json) (e : String) :
    sameValueZero (some y) (some (.str e)) = true ↔ y = .str e := by
  cases y <;> simp [sameValueZero]

theorem includes_map_some_str (l : List Json) (e : String) :
    includes (l.map some) (some (.str e)) = true ↔ Json.str e ∈ l := by
  simp only [includes, List.any_eq_true, List.mem_map]
  constructor
  · rintro ⟨_, ⟨y, hy, rfl⟩, h⟩
    rw [← (sameValueZero_some_str y e).mp h]
    exact hy
  · intro h
    exact ⟨_, ⟨_, h, rfl⟩, (sameValueZero_some_str _ e).mpr rfl⟩

theorem map_getD_map_some (l : List Json) : (l.map some).map (fun x => x.getD Json.null) = l := by
  induction l with
  | nil => rfl
  | cons a l ih => simp only [List.map_cons, Option.getD_some, ih]

theorem stringifyArray_push (J : JsonLib) (l : List Json) (e : String) (h : Json.str e ∉ l) :
    J.stringifyArray (pushIfAbsent (l.map some) (some (.str e))) =
      J.stringify (.arr (l ++ [.str e])) := by
  have hinc : includes (l.map some) (some (.str e)) = false := by
    rw [Bool.eq_false_iff]
    exact fun hi => h ((includes_map_some_str l e).mp hi)
  simp only [pushIfAbsent, hinc, Bool.not_false, if_true, JsonLib.stringifyArray, List.map_append,
    map_getD_map_some, List.map_cons, List.map_nil, Option.getD_some]

theorem stringifyArray_present (J : JsonLib) (l : List Json) (e : String) (h : Json.str e ∈ l) :
    J.stringifyArray (pushIfAbsent (l.map some) (some (.str e))) = J.stringify (.arr l) := by
  have hinc : includes (l.map some) (some (.str e)) = true := (includes_map_some_str l e).mpr h
  simp only [pushIfAbsent, hinc, Bool.not_true, Bool.false_eq_true, if_false,
    JsonLib.stringifyArray, map_getD_map_some]

theorem acceptTrip_of_arr (J : JsonLib) (G : Gateway) (tripId : String) (body : Body)
    (trips : Table) (xs : List Json)
    (h : currentAccepted J (G.select (.str tripId) trips) = .arr xs) :
    acceptTrip J G tripId body trips =
      ⟨some (Response.message 200 "Trip accepted successfully"),
        [acceptUpdate (J.stringifyArray (pushIfAbsent (xs.map some) (body.get "driverEmail")))
          tripId]⟩ := by
  simp only [acceptTrip, h, acceptUpdate]

theorem select_acceptUpdate (G : Gateway) (text tripId : String) (t : Table) :
    G.select (.str tripId) ((acceptUpdate text tripId).run G t) =
      (G.select (.str tripId) t).map fun r => r.assign (acceptUpdate text tripId).sets :=
  Gateway.select_run G (acceptUpdate text tripId) t (by simp [acceptUpdate])

theorem assign_acceptUpdate (r : Row) (text tripId : String) :
    r.assign (acceptUpdate text tripId).sets "acceptedDrivers" = .str text ∧
    r.assign (acceptUpdate text tripId).sets "status" = .str "accept" := by
  constructor <;> simp [acceptUpdate, Row.assign, Function.update_apply]

theorem currentAccepted_of_text (J : JsonLib) (r : Row) (rest : Table) (text : String) (v : Json)
    (hcol : r "acceptedDrivers" = .str text) (hne : text ≠ "") (hp : J.parse text = some v) :
    currentAccepted J (r :: rest) = v := by
  simp only [currentAccepted, hcol, truthy, Json.toStr, hp, ne_eq, hne, not_false_eq_true,
    decide_True, if_true]

theorem currentAccepted_after (J : JsonLib) (G : Gateway) (tripId text : String) (t : Table)
    (v : Json) (hex : G.select (.str tripId) t ≠ []) (hne : text ≠ "")
    (hp : J.parse text = some v) :
    currentAccepted J (G.select (.str tripId) ((acceptUpdate text tripId).run G t)) = v := by
  rw [select_acceptUpdate]
  cases hs : G.select (.str tripId) t with
  | nil => exact absurd hs hex
  | cons r rest =>
    exact currentAccepted_of_text J _ _ text v (assign_acceptUpdate r text tripId).1 hne hp

theorem select_after_ne_nil (G : Gateway) (text tripId : String) (t : Table)
    (hex : G.select (.str tripId) t ≠ []) :
    G.select (.str tripId) ((acceptUpdate text tripId).run G t) ≠ [] := by
  rw [select_acceptUpdate]
  simpa using hex

theorem columns_after (G : Gateway) (text tripId : String) (t : Table) :
    ∀ r ∈ G.select (.str tripId) ((acceptUpdate text tripId).run G t),
      r "acceptedDrivers" = .str text ∧ r "status" = .str "accept" := by
  rw [select_acceptUpdate]
  intro r hr
  obtain ⟨r₀, _, rfl⟩ := List.mem_map.mp hr
  exact assign_acceptUpdate r₀ text tripId

/-! ## Properties of the handlers -/

/-- C8. Start: when some trip has the id, the handler answers 200; when none has, it answers 404
and the table is unchanged; in all cases the table afterwards has status `WIP` in each trip with
that id, whatever its status was, and every other column and every other trip as before. -/
theorem startTrip_spec (G : Gateway) (tripId : String) (trips : Table) :
    ((∃ r ∈ trips, G.selects (.str tripId) r = true) →
      (startTrip G tripId trips).response =
        some (Response.message 200 "Trip started successfully")) ∧
    ((∀ r ∈ trips, G.selects (.str tripId) r = false) →
      (startTrip G tripId trips).response = some (Response.message 404 "Trip not found") ∧
      (startTrip G tripId trips).trips G trips = trips) ∧
    (startTrip G tripId trips).trips G trips =
      trips.map fun r => if G.selects (.str tripId) r = true then
        (fun c => if c = "status" then .str "WIP" else r c) else r := by
  have hz := Update.affectedRows_eq_zero G ⟨[("status", .str "WIP")], .str tripId⟩ trips
  have htab : (startTrip G tripId trips).trips G trips =
      trips.map fun r => if G.selects (.str tripId) r = true then
        (fun c => if c = "status" then .str "WIP" else r c) else r := by
    simp only [startTrip]
    split <;> simp [Outcome.trips, Update.run, Row.assign_single]
  refine ⟨?_, ?_, htab⟩
  · rintro ⟨r, hr, hsel⟩
    have hne : ¬ (Update.affectedRows G ⟨[("status", .str "WIP")], .str tripId⟩ trips = 0) := by
      rw [hz]
      intro hall
      rw [hall r hr] at hsel
      exact Bool.false_ne_true hsel
    simp [startTrip, hne]
  · intro hall
    have h0 := hz.mpr hall
    refine ⟨by simp [startTrip, h0], ?_⟩
    rw [htab]
    exact Table.map_eq_self _ _ fun r hr => by simp [hall r hr]

/-- C4. Field Patch: when the field name is none of `startMeter`, `endMeter`, `luggage`, `pet`,
`toll`, `hills`, the handler answers 400 and issues no write, so the table is as it was. -/
theorem updateField_rejects (body : Body)
    (h : ∀ f ∈ allowedFields, body.get "field" ≠ some (.str f)) :
    ((updateField body).response = some (Response.message 400 "Missing tripId or field") ∨
      (updateField body).response = some (Response.message 400 "Invalid field name")) ∧
    (updateField body).writes = [] ∧
    ∀ (G : Gateway) (trips : Table), (updateField body).trips G trips = trips := by
  have hinc : includes (allowedFields.map fun f => some (.str f)) (body.get "field") = false := by
    rw [Bool.eq_false_iff]
    intro hi
    obtain ⟨f, hf, heq⟩ := (includes_strings allowedFields _).mp hi
    exact h f hf heq
  simp only [updateField, hinc]
  split
  · exact ⟨Or.inl rfl, rfl, fun _ _ => rfl⟩
  · exact ⟨Or.inr rfl, rfl, fun _ _ => rfl⟩

/-- C4, instance: the field `status` is refused and a trip that is in progress stays so. -/
theorem updateField_rejects_witness :
    (updateField [("tripId", .num 1), ("field", .str "status"), ("value", .str "completed")]).response
      = some (Response.message 400 "Invalid field name") ∧
    (updateField [("tripId", .num 1), ("field", .str "status"), ("value", .str "completed")]).writes
      = [] := by
  have h := updateField_rejects
    [("tripId", .num 1), ("field", .str "status"), ("value", .str "completed")] (by decide)
  exact ⟨by decide, h.2.1⟩

/-- C6. Complete: when `finalBill`, `startMeter` or `endMeter` is absent from the request, the
handler answers 400 and issues no write, so the status and every other column of every trip is
as it was. -/
theorem completeTrip_absent (now : Json) (tripId : String) (body : Body)
    (h : body.get "finalBill" = none ∨ body.get "startMeter" = none ∨
      body.get "endMeter" = none) :
    (completeTrip now tripId body).response =
      some (Response.message 400 "Required fields are missing") ∧
    (completeTrip now tripId body).writes = [] ∧
    ∀ (G : Gateway) (trips : Table), (completeTrip now tripId body).trips G trips = trips := by
  have hg : (!truthy (body.get "startMeter") || !truthy (body.get "endMeter") ||
      !truthy (body.get "finalBill")) = true := by
    rcases h with h | h | h <;> simp [h, truthy]
  have ho : completeTrip now tripId body =
      ⟨some (Response.message 400 "Required fields are missing"), []⟩ := by
    simp only [completeTrip, hg, if_true]
  rw [ho]
  exact ⟨rfl, rfl, fun _ _ => rfl⟩

/-- C6, instance: a request without `finalBill` is refused. -/
theorem completeTrip_absent_witness :
    (completeTrip (.str "2025-03-04 05:06:07") "1"
        [("startMeter", .num 10), ("endMeter", .num 50)]).response =
      some (Response.message 400 "Required fields are missing") ∧
    (completeTrip (.str "2025-03-04 05:06:07") "1"
        [("startMeter", .num 10), ("endMeter", .num 50)]).writes = [] := by
  have h := completeTrip_absent (.str "2025-03-04 05:06:07") "1"
    [("startMeter", .num 10), ("endMeter", .num 50)] (Or.inl (by decide))
  exact ⟨h.1, h.2.1⟩

/-- C7, as stated, fails: a Complete request that supplies `startMeter` (as `0`), `endMeter`
and `finalBill` is answered 400 and nothing is written. -/
theorem completeTrip_zero_startMeter :
    Body.get [("startMeter", .num 0), ("endMeter", .num 50), ("finalBill", .num 500)]
      "startMeter" = some (.num 0) ∧
    Body.get [("startMeter", .num 0), ("endMeter", .num 50), ("finalBill", .num 500)]
      "endMeter" = some (.num 50) ∧
    Body.get [("startMeter", .num 0), ("endMeter", .num 50), ("finalBill", .num 500)]
      "finalBill" = some (.num 500) ∧
    completeTrip (.str "2025-03-04 05:06:07") "1"
        [("startMeter", .num 0), ("endMeter", .num 50), ("finalBill", .num 500)] =
      ⟨some (Response.message 400 "Required fields are missing"), []⟩ := by
  decide

/-- C7, amended. Complete: when `startMeter`, `endMeter` and `finalBill` are supplied with truthy
values (not `0`, the empty text, `null` or `false`), the handler reports success and, in every
trip with the id, whatever its status, sets the status to `completed`, stores the three values as
supplied, stores each of `luggage`, `pet`, `toll`, `hills`, `totalKm`, `finalKm` as supplied when
it is truthy and as `0` otherwise, and sets `created_at` to the time of the store; every other
column and every other trip is as before. -/
theorem completeTrip_truthy (now : Json) (tripId : String) (body : Body) (sm em fb : Json)
    (hsm : body.get "startMeter" = some sm) (hem : body.get "endMeter" = some em)
    (hfb : body.get "finalBill" = some fb)
    (tsm : truthy (some sm) = true) (tem : truthy (some em) = true)
    (tfb : truthy (some fb) = true) :
    (completeTrip now tripId body).response =
      some ⟨200, .obj [("message", .str "Trip marked as completed successfully"),
        ("tripId", .str tripId), ("finalBill", fb)]⟩ ∧
    ∀ (G : Gateway) (trips : Table), (completeTrip now tripId body).trips G trips =
      trips.map fun r => if G.selects (.str tripId) r = true then (fun c =>
        if c = "status" then .str "completed"
        else if c = "startMeter" then sm
        else if c = "endMeter" then em
        else if c = "finalBill" then fb
        else if c = "luggage" then
          (if truthy (body.get "luggage") = true then sqlParam (body.get "luggage") else .num 0)
        else if c = "pet" then
          (if truthy (body.get "pet") = true then sqlParam (body.get "pet") else .num 0)
        else if c = "toll" then
          (if truthy (body.get "toll") = true then sqlParam (body.get "toll") else .num 0)
        else if c = "hills" then
          (if truthy (body.get "hills") = true then sqlParam (body.get "hills") else .num 0)
        else if c = "totalKm" then
          (if truthy (body.get "totalKm") = true then sqlParam (body.get "totalKm") else .num 0)
        else if c = "finalKm" then
          (if truthy (body.get "finalKm") = true then sqlParam (body.get "finalKm") else .num 0)
        else if c = "created_at" then now
        else r c) else r := by
  have hg : (!truthy (body.get "startMeter") || !truthy (body.get "endMeter") ||
      !truthy (body.get "finalBill")) = false := by
    simp [hsm, hem, hfb, tsm, tem, tfb]
  simp only [completeTrip, hg, Bool.false_eq_true, if_false]
  refine ⟨by simp only [hfb, Option.getD_some], ?_⟩
  intro G trips
  simp only [Outcome.trips_single, Update.run]
  apply List.map_congr_left
  intro r _
  by_cases hsel : G.selects (.str tripId) r = true
  · rw [if_pos hsel, if_pos hsel]
    funext c
    simp only [Row.assign, Function.update_apply, sqlParam_orElse, hsm, hem, hfb]
    simp only [sqlParam, Option.getD_some]
    by_cases h0 : c = "status"
    · subst h0
      simp
    by_cases h1 : c = "startMeter"
    · subst h1
      simp
    by_cases h2 : c = "endMeter"
    · subst h2
      simp
    by_cases h3 : c = "finalBill"
    · subst h3
      simp
    by_cases h4 : c = "luggage"
    · subst h4
      simp
    by_cases h5 : c = "pet"
    · subst h5
      simp
    by_cases h6 : c = "toll"
    · subst h6
      simp
    by_cases h7 : c = "hills"
    · subst h7
      simp
    by_cases h8 : c = "totalKm"
    · subst h8
      simp
    by_cases h9 : c = "finalKm"
    · subst h9
      simp
    by_cases h10 : c = "created_at"
    · subst h10
      simp
    simp only [h0, h1, h2, h3, h4, h5, h6, h7, h8, h9, h10, if_false]
  · rw [if_neg hsel, if_neg hsel]

/-- C7, amended, instance: the request of the scenario of the specification
(`startMeter` 10, `endMeter` 50, `finalBill` 500) is reported as a success. -/
theorem completeTrip_truthy_witness :
    (completeTrip (.str "2025-03-04 05:06:07") "1"
        [("startMeter", .num 10), ("endMeter", .num 50), ("finalBill", .num 500)]).response =
      some ⟨200, .obj [("message", .str "Trip marked as completed successfully"),
        ("tripId", .str "1"), ("finalBill", .num 500)]⟩ :=
  (completeTrip_truthy (.str "2025-03-04 05:06:07") "1"
    [("startMeter", .num 10), ("endMeter", .num 50), ("finalBill", .num 500)]
    (.num 10) (.num 50) (.num 500) (by decide) (by decide) (by decide)
    (by decide) (by decide) (by decide)).1

/-- C5, as stated, fails: for the request with trip id `0`, the field `pet` of the allow-list
and the value `1`, the handler answers 400 and writes nothing. -/
theorem updateField_zero_tripId :
    Body.get [("tripId", .num 0), ("field", .str "pet"), ("value", .num 1)] "field" =
      some (.str "pet") ∧
    "pet" ∈ allowedFields ∧
    updateField [("tripId", .num 0), ("field", .str "pet"), ("value", .num 1)] =
      ⟨some (Response.message 400 "Missing tripId or field"), []⟩ := by
  decide

/-- C5, amended. Field Patch, for a request whose `tripId` is truthy (not absent, `0`, the empty
text, `null` or `false`): the handler issues a write exactly when the field name is in the
allow-list; then it answers 200 and the one write puts the value (`NULL` when the request has
none) into the named column of each trip with that id, every other column and every other trip
being as before; in every other case it answers 400 and writes nothing. -/
theorem updateField_truthy (body : Body) (ht : truthy (body.get "tripId") = true) :
    ((updateField body).writes ≠ [] ↔ ∃ f ∈ allowedFields, body.get "field" = some (.str f)) ∧
    (∀ f ∈ allowedFields, body.get "field" = some (.str f) →
      updateField body = ⟨some (Response.message 200 "Trip updated successfully"),
        [⟨[(f, sqlParam (body.get "value"))], sqlParam (body.get "tripId")⟩]⟩ ∧
      ∀ (G : Gateway) (trips : Table), (updateField body).trips G trips =
        trips.map fun r => if G.selects (sqlParam (body.get "tripId")) r = true then
          (fun c => if c = f then sqlParam (body.get "value") else r c) else r) ∧
    ((∀ f ∈ allowedFields, body.get "field" ≠ some (.str f)) →
      ((updateField body).response = some (Response.message 400 "Missing tripId or field") ∨
        (updateField body).response = some (Response.message 400 "Invalid field name")) ∧
      (updateField body).writes = []) := by
  have hyes : ∀ f ∈ allowedFields, body.get "field" = some (.str f) →
      updateField body = ⟨some (Response.message 200 "Trip updated successfully"),
        [⟨[(f, sqlParam (body.get "value"))], sqlParam (body.get "tripId")⟩]⟩ := by
    intro f hf hfield
    have hinc : includes (allowedFields.map fun f => some (.str f)) (body.get "field") = true :=
      (includes_strings allowedFields _).mpr ⟨f, hf, hfield⟩
    have htf : truthy (some (.str f)) = true := truthy_allowedFields f hf
    rw [hfield] at hinc
    simp only [updateField, hfield, ht, htf, hinc, Bool.not_true, Bool.or_self,
      Bool.false_eq_true, if_false, toStr, Json.toStr]
  have hno : (∀ f ∈ allowedFields, body.get "field" ≠ some (.str f)) →
      ((updateField body).response = some (Response.message 400 "Missing tripId or field") ∨
        (updateField body).response = some (Response.message 400 "Invalid field name")) ∧
      (updateField body).writes = [] := by
    intro h
    have hinc : includes (allowedFields.map fun f => some (.str f)) (body.get "field") = false := by
      rw [Bool.eq_false_iff]
      intro hi
      obtain ⟨f, hf, heq⟩ := (includes_strings allowedFields _).mp hi
      exact h f hf heq
    simp only [updateField, hinc]
    split
    · exact ⟨Or.inl rfl, rfl⟩
    · exact ⟨Or.inr rfl, rfl⟩
  refine ⟨?_, ?_, hno⟩
  · constructor
    · intro hw
      by_contra hex
      apply hw
      refine (hno ?_).2
      intro f hf heq
      exact hex ⟨f, hf, heq⟩
    · rintro ⟨f, hf, heq⟩
      rw [hyes f hf heq]
      simp
  · intro f hf hfield
    refine ⟨hyes f hf hfield, ?_⟩
    intro G trips
    rw [hyes f hf hfield, Outcome.trips_single]
    simp only [Update.run, Row.assign_single]

/-- C5, amended, instance: the request with trip id `1`, the field `pet` and the value `1` is
answered 200 and writes `pet = 1` where the id is `1`. -/
theorem updateField_truthy_witness :
    updateField [("tripId", .num 1), ("field", .str "pet"), ("value", .num 1)] =
      ⟨some (Response.message 200 "Trip updated successfully"),
        [⟨[("pet", .num 1)], .num 1⟩]⟩ :=
  ((updateField_truthy [("tripId", .num 1), ("field", .str "pet"), ("value", .num 1)]
    (by decide)).2.1 "pet" (by decide) (by decide)).1

/-- C9, as stated, fails: a request that carries the trip id `0` and a driver email, on a table
in which no trip has the id `0`, is answered 400 and not 404. -/
theorem assignDriver_zero_tripId :
    Body.get [("tripId", .num 0), ("driverEmail", .str "d@x.com")] "tripId" = some (.num 0) ∧
    Body.get [("tripId", .num 0), ("driverEmail", .str "d@x.com")] "driverEmail" =
      some (.str "d@x.com") ∧
    (Gateway.byText.select (.num 0) [Row.blank 1]).length = 0 ∧
    assignDriver Gateway.byText "2025-03-04T05:06:07.000Z"
        [("tripId", .num 0), ("driverEmail", .str "d@x.com")] [Row.blank 1] =
      ⟨some (Response.message 400 "tripId and driverEmail are required"), []⟩ := by
  decide

/-- C9, amended. Administrative assignment: when `tripId` or `driverEmail` is absent or falsy
(`0`, the empty text, `null`, `false`) the handler answers 400 and writes nothing. When both are
truthy (as a non-empty driver email is), it answers 200 if some trip has the id and 404 with the
table unchanged if none has; each trip with the id then has `driverEmail` equal to the email of
the request, status `accept` and `assignedAt` equal to the current time (the first 19 characters
of its ISO text with a blank for the `T`), and `acceptedDrivers`, every other column and every
other trip are as before. -/
theorem assignDriver_spec (G : Gateway) (isoNow : String) (body : Body) (trips : Table) :
    ((truthy (body.get "tripId") = false ∨ truthy (body.get "driverEmail") = false) →
      assignDriver G isoNow body trips =
        ⟨some (Response.message 400 "tripId and driverEmail are required"), []⟩) ∧
    (∀ d : Json, truthy (body.get "tripId") = true → body.get "driverEmail" = some d →
      truthy (some d) = true →
      ((∃ r ∈ trips, G.selects (sqlParam (body.get "tripId")) r = true) →
        (assignDriver G isoNow body trips).response =
          some (Response.message 200 "Driver assigned successfully")) ∧
      ((∀ r ∈ trips, G.selects (sqlParam (body.get "tripId")) r = false) →
        (assignDriver G isoNow body trips).response =
          some (Response.message 404 "Trip not found") ∧
        (assignDriver G isoNow body trips).trips G trips = trips) ∧
      (assignDriver G isoNow body trips).trips G trips =
        trips.map fun r => if G.selects (sqlParam (body.get "tripId")) r = true then
          (fun c =>
            if c = "assignedAt" then .str (replaceFirst (slice0 isoNow 19) 'T' ' ')
            else if c = "status" then .str "accept"
            else if c = "driverEmail" then d
            else r c) else r) := by
  constructor
  · intro h
    have hg : (!truthy (body.get "tripId") || !truthy (body.get "driverEmail")) = true := by
      rcases h with h | h <;> simp [h]
    simp only [assignDriver, hg, if_true]
  · intro d ht hd htd
    have hg : (!truthy (body.get "tripId") || !truthy (body.get "driverEmail")) = false := by
      simp [ht, hd, htd]
    have hz := Update.affectedRows_eq_zero G
      ⟨[("driverEmail", sqlParam (body.get "driverEmail")), ("status", .str "accept"),
        ("assignedAt", .str (replaceFirst (slice0 isoNow 19) 'T' ' '))],
        sqlParam (body.get "tripId")⟩ trips
    have htab : (assignDriver G isoNow body trips).trips G trips =
        trips.map fun r => if G.selects (sqlParam (body.get "tripId")) r = true then
          (fun c =>
            if c = "assignedAt" then .str (replaceFirst (slice0 isoNow 19) 'T' ' ')
            else if c = "status" then .str "accept"
            else if c = "driverEmail" then d
            else r c) else r := by
      simp only [assignDriver, hg, Bool.false_eq_true, if_false]
      split <;>
        simp only [Outcome.trips_single, Update.run, Row.assign_three, hd, sqlParam,
          Option.getD_some]
    refine ⟨?_, ?_, htab⟩
    · rintro ⟨r, hr, hsel⟩
      have hne : ¬ (Update.affectedRows G
          ⟨[("driverEmail", sqlParam (body.get "driverEmail")), ("status", .str "accept"),
            ("assignedAt", .str (replaceFirst (slice0 isoNow 19) 'T' ' '))],
            sqlParam (body.get "tripId")⟩ trips = 0) := by
        rw [hz]
        intro hall
        rw [hall r hr] at hsel
        exact Bool.false_ne_true hsel
      simp only [assignDriver, hg, Bool.false_eq_true, if_false, hne]
    · intro hall
      have h0 := hz.mpr hall
      refine ⟨by simp only [assignDriver, hg, Bool.false_eq_true, if_false, h0, if_true], ?_⟩
      rw [htab]
      exact Table.map_eq_self _ _ fun r hr => by simp [hall r hr]

/-- C9, amended, instance: trip `1` is assigned to `d@x.com` at `2025-03-04 05:06:07`; its
`acceptedDrivers` stays as it was. -/
theorem assignDriver_spec_witness :
    (assignDriver Gateway.byText "2025-03-04T05:06:07.000Z"
        [("tripId", .num 1), ("driverEmail", .str "d@x.com")] [Row.blank 1]).response =
      some (Response.message 200 "Driver assigned successfully") ∧
    ((assignDriver Gateway.byText "2025-03-04T05:06:07.000Z"
        [("tripId", .num 1), ("driverEmail", .str "d@x.com")] [Row.blank 1]).trips
          Gateway.byText [Row.blank 1]).map
        (fun r => [r "id", r "driverEmail", r "status", r "assignedAt", r "acceptedDrivers"]) =
      [[.num 1, .str "d@x.com", .str "accept", .str "2025-03-04 05:06:07", .null]] := by
  have h := (assignDriver_spec Gateway.byText "2025-03-04T05:06:07.000Z"
    [("tripId", .num 1), ("driverEmail", .str "d@x.com")] [Row.blank 1]).2
      (.str "d@x.com") (by decide) (by decide) (by decide)
  refine ⟨h.1 ⟨Row.blank 1, List.mem_singleton.mpr rfl, by decide⟩, ?_⟩
  rw [h.2.2]
  decide

/-- C1. Accept-intent twice with the same driver email `e`, on an existing trip whose stored
`acceptedDrivers` the handler reads as a list `l` without `e` (the empty list when the column is
`NULL` or empty), given that the JSON library reads back the array `l ++ [e]` it writes: the first
call writes the text of `l ++ [e]`, the second call writes the same statement with the same text,
and afterwards the trip still exists, holds that text, and the list read from it is `l ++ [e]`,
in which `e` occurs exactly once. -/
theorem acceptTrip_twice (J : JsonLib) (G : Gateway) (tripId : String) (b₁ b₂ : Body)
    (trips : Table) (l : List Json) (e : String)
    (hex : G.select (.str tripId) trips ≠ [])
    (hcur : currentAccepted J (G.select (.str tripId) trips) = .arr l)
    (hnot : Json.str e ∉ l)
    (he₁ : b₁.get "driverEmail" = some (.str e)) (he₂ : b₂.get "driverEmail" = some (.str e))
    (hJ : J.ReadsBack (l ++ [.str e])) :
    (acceptTrip J G tripId b₁ trips).writes =
      [acceptUpdate (J.stringify (.arr (l ++ [.str e]))) tripId] ∧
    (acceptTrip J G tripId b₂ (acceptTable J G tripId b₁ trips)).writes =
      (acceptTrip J G tripId b₁ trips).writes ∧
    G.select (.str tripId) (acceptTable J G tripId b₂ (acceptTable J G tripId b₁ trips)) ≠ [] ∧
    (∀ r ∈ G.select (.str tripId) (acceptTable J G tripId b₂ (acceptTable J G tripId b₁ trips)),
      r "acceptedDrivers" = .str (J.stringify (.arr (l ++ [.str e])))) ∧
    currentAccepted J
        (G.select (.str tripId) (acceptTable J G tripId b₂ (acceptTable J G tripId b₁ trips))) =
      .arr (l ++ [.str e]) ∧
    List.count (Json.str e) (l ++ [Json.str e]) = 1 := by
  have h₁ : acceptTrip J G tripId b₁ trips =
      ⟨some (Response.message 200 "Trip accepted successfully"),
        [acceptUpdate (J.stringify (.arr (l ++ [.str e]))) tripId]⟩ := by
    rw [acceptTrip_of_arr J G tripId b₁ trips l hcur, he₁, stringifyArray_push J l e hnot]
  have ht₁ : acceptTable J G tripId b₁ trips =
      (acceptUpdate (J.stringify (.arr (l ++ [.str e]))) tripId).run G trips := by
    rw [acceptTable, h₁, Outcome.trips_single]
  have hcur₁ : currentAccepted J (G.select (.str tripId) (acceptTable J G tripId b₁ trips)) =
      .arr (l ++ [.str e]) := by
    rw [ht₁]
    exact currentAccepted_after J G tripId _ trips _ hex hJ.1 hJ.2
  have hex₁ : G.select (.str tripId) (acceptTable J G tripId b₁ trips) ≠ [] := by
    rw [ht₁]
    exact select_after_ne_nil G _ tripId trips hex
  have hmem : Json.str e ∈ l ++ [.str e] := by simp
  have h₂ : acceptTrip J G tripId b₂ (acceptTable J G tripId b₁ trips) =
      ⟨some (Response.message 200 "Trip accepted successfully"),
        [acceptUpdate (J.stringify (.arr (l ++ [.str e]))) tripId]⟩ := by
    rw [acceptTrip_of_arr J G tripId b₂ _ (l ++ [Json.str e]) hcur₁, he₂,
      stringifyArray_present J (l ++ [Json.str e]) e hmem]
  have ht₂ : acceptTable J G tripId b₂ (acceptTable J G tripId b₁ trips) =
      (acceptUpdate (J.stringify (.arr (l ++ [.str e]))) tripId).run G
        (acceptTable J G tripId b₁ trips) := by
    rw [acceptTable, h₂, Outcome.trips_single]
  refine ⟨by rw [h₁], by rw [h₂, h₁], ?_, ?_, ?_, ?_⟩
  · rw [ht₂]
    exact select_after_ne_nil G _ tripId _ hex₁
  · rw [ht₂]
    exact fun r hr => (columns_after G _ tripId _ r hr).1
  · rw [ht₂]
    exact currentAccepted_after J G tripId _ _ _ hex₁ hJ.1 hJ.2
  · rw [List.count_append, List.count_eq_zero_of_not_mem hnot]
    simp

/-- C1, instance: on a fresh trip `1`, two calls with `a@x.com` write the same statement. -/
theorem acceptTrip_twice_witness :
    (acceptTrip JsonLib.node Gateway.byText "1" [("driverEmail", .str "a@x.com")]
        (acceptTable JsonLib.node Gateway.byText "1" [("driverEmail", .str "a@x.com")]
          [Row.blank 1])).writes =
      (acceptTrip JsonLib.node Gateway.byText "1" [("driverEmail", .str "a@x.com")]
        [Row.blank 1]).writes ∧
    List.count (Json.str "a@x.com") ([] ++ [Json.str "a@x.com"]) = 1 :=
  have h := acceptTrip_twice JsonLib.node Gateway.byText "1" [("driverEmail", .str "a@x.com")]
    [("driverEmail", .str "a@x.com")] [Row.blank 1] [] "a@x.com"
    (List.ne_nil_of_length_pos (by decide)) (by decide) (List.not_mem_nil _) (by decide)
    (by decide) ⟨by decide, by decide⟩
  ⟨h.2.1, h.2.2.2.2.2⟩

/-- C2. Accept-intent with `a` and then with a different `b`, on an existing trip whose stored
`acceptedDrivers` the handler reads as the empty list, given that the JSON library reads back the
array `[a]` it writes: after the first call the trip holds the text of `[a]` and status `accept`;
after the second it still exists and holds the text of `[a, b]` and status `accept`. -/
theorem acceptTrip_two_drivers (J : JsonLib) (G : Gateway) (tripId : String) (b₁ b₂ : Body)
    (trips : Table) (a b : String)
    (hex : G.select (.str tripId) trips ≠ [])
    (hcur : currentAccepted J (G.select (.str tripId) trips) = .arr [])
    (hab : a ≠ b)
    (ha : b₁.get "driverEmail" = some (.str a)) (hb : b₂.get "driverEmail" = some (.str b))
    (hJ : J.ReadsBack [.str a]) :
    G.select (.str tripId) (acceptTable J G tripId b₁ trips) ≠ [] ∧
    (∀ r ∈ G.select (.str tripId) (acceptTable J G tripId b₁ trips),
      r "acceptedDrivers" = .str (J.stringify (.arr [.str a])) ∧ r "status" = .str "accept") ∧
    G.select (.str tripId) (acceptTable J G tripId b₂ (acceptTable J G tripId b₁ trips)) ≠ [] ∧
    (∀ r ∈ G.select (.str tripId) (acceptTable J G tripId b₂ (acceptTable J G tripId b₁ trips)),
      r "acceptedDrivers" = .str (J.stringify (.arr [.str a, .str b])) ∧
      r "status" = .str "accept") := by
  have h₁ : acceptTrip J G tripId b₁ trips =
      ⟨some (Response.message 200 "Trip accepted successfully"),
        [acceptUpdate (J.stringify (.arr [.str a])) tripId]⟩ := by
    rw [acceptTrip_of_arr J G tripId b₁ trips [] hcur, ha,
      stringifyArray_push J [] a (List.not_mem_nil _)]
    rfl
  have ht₁ : acceptTable J G tripId b₁ trips =
      (acceptUpdate (J.stringify (.arr [.str a])) tripId).run G trips := by
    rw [acceptTable, h₁, Outcome.trips_single]
  have hcur₁ : currentAccepted J (G.select (.str tripId) (acceptTable J G tripId b₁ trips)) =
      .arr [.str a] := by
    rw [ht₁]
    exact currentAccepted_after J G tripId _ trips _ hex hJ.1 hJ.2
  have hex₁ : G.select (.str tripId) (acceptTable J G tripId b₁ trips) ≠ [] := by
    rw [ht₁]
    exact select_after_ne_nil G _ tripId trips hex
  have hnot : Json.str b ∉ [Json.str a] := by
    simp only [List.mem_singleton, Json.str.injEq]
    exact fun h => hab h.symm
  have h₂ : acceptTrip J G tripId b₂ (acceptTable J G tripId b₁ trips) =
      ⟨some (Response.message 200 "Trip accepted successfully"),
        [acceptUpdate (J.stringify (.arr [.str a, .str b])) tripId]⟩ := by
    rw [acceptTrip_of_arr J G tripId b₂ _ [.str a] hcur₁, hb,
      stringifyArray_push J [.str a] b hnot]
    rfl
  have ht₂ : acceptTable J G tripId b₂ (acceptTable J G tripId b₁ trips) =
      (acceptUpdate (J.stringify (.arr [.str a, .str b])) tripId).run G
        (acceptTable J G tripId b₁ trips) := by
    rw [acceptTable, h₂, Outcome.trips_single]
  refine ⟨hex₁, ?_, ?_, ?_⟩
  · rw [ht₁]
    exact columns_after G _ tripId trips
  · rw [ht₂]
    exact select_after_ne_nil G _ tripId _ hex₁
  · rw [ht₂]
    exact columns_after G _ tripId _

/-- C2, instance: the scenario of the specification, on a fresh trip `1`: after `a@x.com` and then
`b@x.com` the trip holds the text `["a@x.com","b@x.com"]` and status `accept`. -/
theorem acceptTrip_two_drivers_witness :
    JSON.stringify (.arr [.str "a@x.com", .str "b@x.com"]) =
      String.mk ['[', JSON.dquote, 'a', '@', 'x', '.', 'c', 'o', 'm', JSON.dquote, ',',
        JSON.dquote, 'b', '@', 'x', '.', 'c', 'o', 'm', JSON.dquote, ']'] ∧
    ∀ r ∈ Gateway.byText.select (.str "1")
        (acceptTable JsonLib.node Gateway.byText "1" [("driverEmail", .str "b@x.com")]
          (acceptTable JsonLib.node Gateway.byText "1" [("driverEmail", .str "a@x.com")]
            [Row.blank 1])),
      r "acceptedDrivers" = .str (JSON.stringify (.arr [.str "a@x.com", .str "b@x.com"])) ∧
      r "status" = .str "accept" :=
  ⟨by decide,
    (acceptTrip_two_drivers JsonLib.node Gateway.byText "1" [("driverEmail", .str "a@x.com")]
      [("driverEmail", .str "b@x.com")] [Row.blank 1] "a@x.com" "b@x.com"
      (List.ne_nil_of_length_pos (by decide)) (by decide) (by decide) (by decide) (by decide)
      ⟨by decide, by decide⟩).2.2.2⟩

/-- C3, the failing input. A trip whose `acceptedDrivers` is the text `[null]`, which is read as
the duplicate-free list `[null]` (it is what a first request without `driverEmail` writes on a
fresh trip), and a request without `driverEmail`: the handler writes the text `[null,null]`,
which is read as a list that holds `null` twice. -/
theorem acceptTrip_undefined_twice :
    (acceptTrip JsonLib.node Gateway.byText "1" [] [Row.blank 1]).writes =
      [acceptUpdate "[null]" "1"] ∧
    JSON.parse "[null]" = some (.arr [.null]) ∧
    [Json.null].Nodup ∧
    acceptTrip JsonLib.node Gateway.byText "1" [] [Row.withAccepted 1 "[null]"] =
      ⟨some (Response.message 200 "Trip accepted successfully"),
        [acceptUpdate "[null,null]" "1"]⟩ ∧
    JSON.parse "[null,null]" = some (.arr [.null, .null]) ∧
    ¬ [Json.null, Json.null].Nodup := by
  decide

/-- C10. Accept-intent on an existing trip whose stored `acceptedDrivers` is a text that
`JSON.parse` rejects, with the driver email `e`: the handler answers 200 and writes the text of
the one-element list `[e]` and status `accept`, which the trip holds afterwards. -/
theorem acceptTrip_unparsable (J : JsonLib) (G : Gateway) (tripId : String) (body : Body)
    (trips : Table) (r : Row) (rest : Table) (text e : String)
    (hsel : G.select (.str tripId) trips = r :: rest)
    (hcol : r "acceptedDrivers" = .str text)
    (hparse : J.parse text = none)
    (he : body.get "driverEmail" = some (.str e)) :
    acceptTrip J G tripId body trips =
      ⟨some (Response.message 200 "Trip accepted successfully"),
        [⟨[("acceptedDrivers", .str (J.stringify (.arr [.str e]))), ("status", .str "accept")],
          .str tripId⟩]⟩ ∧
    G.select (.str tripId) (acceptTable J G tripId body trips) ≠ [] ∧
    ∀ r' ∈ G.select (.str tripId) (acceptTable J G tripId body trips),
      r' "acceptedDrivers" = .str (J.stringify (.arr [.str e])) ∧
      r' "status" = .str "accept" := by
  have hcur : currentAccepted J (G.select (.str tripId) trips) = .arr [] := by
    rw [hsel]
    simp only [currentAccepted, hcol, Json.toStr, hparse]
    split <;> rfl
  have hex : G.select (.str tripId) trips ≠ [] := by
    rw [hsel]
    exact List.cons_ne_nil _ _
  have h₁ : acceptTrip J G tripId body trips =
      ⟨some (Response.message 200 "Trip accepted successfully"),
        [acceptUpdate (J.stringify (.arr [.str e])) tripId]⟩ := by
    rw [acceptTrip_of_arr J G tripId body trips [] hcur, he,
      stringifyArray_push J [] e (List.not_mem_nil _)]
    rfl
  have ht₁ : acceptTable J G tripId body trips =
      (acceptUpdate (J.stringify (.arr [.str e])) tripId).run G trips := by
    rw [acceptTable, h₁, Outcome.trips_single]
  refine ⟨h₁, ?_, ?_⟩
  · rw [ht₁]
    exact select_after_ne_nil G _ tripId trips hex
  · rw [ht₁]
    exact columns_after G _ tripId trips

/-- C10, instance: a trip whose `acceptedDrivers` still holds the bare text `a@x.com`, which is no
JSON, gets the one-element list of the new driver. -/
theorem acceptTrip_unparsable_witness :
    acceptTrip JsonLib.node Gateway.byText "1" [("driverEmail", .str "b@x.com")]
        [Row.withAccepted 1 "a@x.com"] =
      ⟨some (Response.message 200 "Trip accepted successfully"),
        [⟨[("acceptedDrivers", .str (JSON.stringify (.arr [.str "b@x.com"]))),
          ("status", .str "accept")], .str "1"⟩]⟩ :=
  (acceptTrip_unparsable JsonLib.node Gateway.byText "1" [("driverEmail", .str "b@x.com")]
    [Row.withAccepted 1 "a@x.com"] (Row.withAccepted 1 "a@x.com") [] "a@x.com" "b@x.com"
    rfl rfl (by decide) (by decide)).1

theorem acceptTrip_cases (J : JsonLib) (G : Gateway) (tripId : String) (body : Body)
    (trips : Table) :
    acceptTrip J G tripId body trips = ⟨none, []⟩ ∨
    ∃ text, acceptTrip J G tripId body trips =
      ⟨some (Response.message 200 "Trip accepted successfully"), [acceptUpdate text tripId]⟩ := by
  simp only [acceptTrip, acceptUpdate]
  split
  · exact Or.inr ⟨_, rfl⟩
  · split
    · exact Or.inl rfl
    · exact Or.inr ⟨_, rfl⟩
  · exact Or.inl rfl

theorem select_eq_nil (G : Gateway) (p : Json) (t : Table)
    (h : ∀ r ∈ t, G.selects p r = false) : G.select p t = [] := by
  simp only [Gateway.select, List.filter_eq_nil_iff]
  intro r hr
  simp [h r hr]

/-- C17. Accept-intent, for every table and request: the table afterwards is the old one row by
row, a trip without the given id is as it was, and a trip with the id differs from what it was at
most in the columns `acceptedDrivers` and `status` (so its `driverEmail` and every other column
are as before); when no trip has the id, the table is unchanged and the answer is still
200 `Trip accepted successfully`. -/
theorem acceptTrip_frame (J : JsonLib) (G : Gateway) (tripId : String) (body : Body)
    (trips : Table) :
    (∃ f : Row → Row, acceptTable J G tripId body trips = trips.map f ∧
      ∀ r, (G.selects (.str tripId) r = false → f r = r) ∧
        ∀ c, c ≠ "acceptedDrivers" → c ≠ "status" → f r c = r c) ∧
    ((∀ r ∈ trips, G.selects (.str tripId) r = false) →
      (acceptTrip J G tripId body trips).response =
        some (Response.message 200 "Trip accepted successfully") ∧
      acceptTable J G tripId body trips = trips) := by
  constructor
  · rcases acceptTrip_cases J G tripId body trips with h | ⟨text, h⟩
    · refine ⟨id, ?_, fun r => ⟨fun _ => rfl, fun _ _ _ => rfl⟩⟩
      rw [acceptTable, h, List.map_id]
      rfl
    · refine ⟨fun r => if G.selects (.str tripId) r = true then
        r.assign (acceptUpdate text tripId).sets else r, ?_, fun r => ⟨?_, ?_⟩⟩
      · rw [acceptTable, h, Outcome.trips_single]
        rfl
      · intro hr
        simp [hr]
      · intro c hc₁ hc₂
        show (if G.selects (.str tripId) r = true then
          r.assign (acceptUpdate text tripId).sets else r) c = r c
        split
        · apply Row.assign_of_not_mem
          simp only [acceptUpdate, List.map_cons, List.map_nil, List.mem_cons, List.mem_singleton,
            List.not_mem_nil, or_false, not_or]
          exact ⟨hc₁, hc₂⟩
        · rfl
  · intro hall
    have hcur : currentAccepted J (G.select (.str tripId) trips) = .arr [] := by
      rw [select_eq_nil G _ trips hall]
      rfl
    have h := acceptTrip_of_arr J G tripId body trips [] hcur
    refine ⟨by rw [h], ?_⟩
    rw [acceptTable, h, Outcome.trips_single]
    exact Table.map_eq_self _ _ fun r hr => if_neg (by
      rw [show (acceptUpdate _ tripId).whereId = Json.str tripId from rfl, hall r hr]
      exact Bool.false_ne_true)

/-- C16, as stated, fails, in three ways. A trip created with `luggage` 3 holds 3 while its status
is not `completed`. A Field Patch of `startMeter` on a created trip leaves 10 there while the
status is not `completed`, and so does a Field Patch of each of the six allow-listed fields. A
trip that is completed and then started has status `WIP` and the `finalBill` 500; completed and
then accepted, or completed and then assigned, it has status `accept` and the `finalBill` 500. -/
theorem metered_before_completed :
    (runAll JsonLib.node Gateway.byText Row.nulls
        [.create 1 (.str "2025-03-04 05:06:07") [("luggage", .num 3)]]).map
      (fun r => [r "id", r "status", r "luggage"]) = [[.num 1, .null, .num 3]] ∧
    (runAll JsonLib.node Gateway.byText Row.nulls
        [.create 1 (.str "2025-03-04 05:06:07") [],
         .patch [("tripId", .num 1), ("field", .str "startMeter"), ("value", .num 10)]]).map
      (fun r => [r "id", r "status", r "startMeter"]) = [[.num 1, .null, .num 10]] ∧
    (runAll JsonLib.node Gateway.byText Row.nulls
        [.create 1 (.str "2025-03-04 05:06:07") [],
         .complete (.str "2025-03-04 06:00:00") "1"
           [("startMeter", .num 10), ("endMeter", .num 50), ("finalBill", .num 500)],
         .start "1"]).map
      (fun r => [r "id", r "status", r "finalBill"]) = [[.num 1, .str "WIP", .num 500]] ∧
    (allowedFields.map fun f =>
      (runAll JsonLib.node Gateway.byText Row.nulls
        [.create 1 (.str "2025-03-04 05:06:07") [],
         .patch [("tripId", .num 1), ("field", .str f), ("value", .num 10)]]).map
      (fun r => [r "id", r "status", r f])) = List.replicate 6 [[.num 1, .null, .num 10]] ∧
    (runAll JsonLib.node Gateway.byText Row.nulls
        [.create 1 (.str "2025-03-04 05:06:07") [],
         .complete (.str "2025-03-04 06:00:00") "1"
           [("startMeter", .num 10), ("endMeter", .num 50), ("finalBill", .num 500)],
         .accept "1" [("driverEmail", .str "a@x.com")]]).map
      (fun r => [r "id", r "status", r "finalBill"]) = [[.num 1, .str "accept", .num 500]] ∧
    (runAll JsonLib.node Gateway.byText Row.nulls
        [.create 1 (.str "2025-03-04 05:06:07") [],
         .complete (.str "2025-03-04 06:00:00") "1"
           [("startMeter", .num 10), ("endMeter", .num 50), ("finalBill", .num 500)],
         .assign "2025-03-04T06:30:00.000Z"
           [("tripId", .num 1), ("driverEmail", .str "a@x.com")]]).map
      (fun r => [r "id", r "status", r "finalBill"]) = [[.num 1, .str "accept", .num 500]] := by
  decide

theorem Update.run_keeps (G : Gateway) (u : Update) (t : Table) (Φ : Row → Prop)
    (hcase :
      ((∀ r : Row, Φ r → Φ (r.assign u.sets)) ∧
        ∀ r ∈ t, G.selects u.whereId r = true → r "status" ≠ .str "completed") ∨
      ((∀ r : Row, Φ r → Φ (r.assign u.sets)) ∧
        ∀ r : Row, r.assign u.sets "status" = r "status") ∨
      (∀ r : Row, r.assign u.sets "status" = .str "completed"))
    (inv : ∀ r ∈ t, r "status" ≠ .str "completed" → Φ r) :
    ∀ r' ∈ u.run G t, r' "status" ≠ .str "completed" → Φ r' := by
  intro r' hr' hs
  obtain ⟨r, hr, rfl⟩ := List.mem_map.mp hr'
  by_cases hsel : G.selects u.whereId r = true
  · rw [if_pos hsel] at hs ⊢
    rcases hcase with ⟨hΦ, hA⟩ | ⟨hΦ, hB⟩ | hC
    · exact hΦ r (inv r hr (hA r hr hsel))
    · rw [hB r] at hs
      exact hΦ r (inv r hr hs)
    · exact absurd (hC r) hs
  · rw [if_neg hsel] at hs ⊢
    exact inv r hr hs

theorem accept_shape (J : JsonLib) (G : Gateway) (tripId : String) (body : Body) (t : Table) :
    acceptTable J G tripId body t = t ∨
    ∃ text, acceptTable J G tripId body t = (acceptUpdate text tripId).run G t := by
  rcases acceptTrip_cases J G tripId body t with h | ⟨text, h⟩
  · exact Or.inl (by rw [acceptTable, h]; rfl)
  · exact Or.inr ⟨text, by rw [acceptTable, h, Outcome.trips_single]⟩

theorem assign_shape (G : Gateway) (isoNow : String) (body : Body) (t : Table) :
    (assignDriver G isoNow body t).trips G t = t ∨
    ∃ d a : Json, (assignDriver G isoNow body t).trips G t =
      (⟨[("driverEmail", d), ("status", .str "accept"), ("assignedAt", a)],
        sqlParam (body.get "tripId")⟩ : Update).run G t := by
  simp only [assignDriver]
  split
  · exact Or.inl rfl
  · split <;> exact Or.inr ⟨_, _, rfl⟩

theorem start_shape (G : Gateway) (tripId : String) (t : Table) :
    (startTrip G tripId t).trips G t =
      (⟨[("status", .str "WIP")], .str tripId⟩ : Update).run G t := by
  simp only [startTrip]
  split <;> rfl

theorem patch_shape (G : Gateway) (body : Body) (t : Table) :
    (updateField body).trips G t = t ∨
    ∃ (f : String) (v : Json), f ∈ allowedFields ∧ body.get "field" = some (.str f) ∧
      (updateField body).trips G t =
        (⟨[(f, v)], sqlParam (body.get "tripId")⟩ : Update).run G t := by
  simp only [updateField]
  split
  · exact Or.inl rfl
  · split
    · exact Or.inl rfl
    · rename_i hinc
      have hinc' : includes (allowedFields.map fun f => some (.str f)) (body.get "field") =
          true := by simpa using hinc
      obtain ⟨f, hf, hfield⟩ := (includes_strings allowedFields _).mp hinc'
      refine Or.inr ⟨f, sqlParam (body.get "value"), hf, hfield, ?_⟩
      rw [hfield]
      rfl

theorem complete_shape (G : Gateway) (now : Json) (tripId : String) (body : Body) (t : Table) :
    (completeTrip now tripId body).trips G t = t ∨
    ∃ sets : List (String × Json),
      (completeTrip now tripId body).trips G t = (⟨sets, .str tripId⟩ : Update).run G t ∧
      ∀ r : Row, r.assign sets "status" = .str "completed" := by
  simp only [completeTrip]
  split
  · exact Or.inl rfl
  · refine Or.inr ⟨_, rfl, fun r => ?_⟩
    simp [Row.assign, Function.update_apply]

theorem not_completed_of_any (G : Gateway) (p : Json) (t : Table)
    (h : (t.any fun r => G.selects p r && decide (r "status" = .str "completed")) = false) :
    ∀ r ∈ t, G.selects p r = true → r "status" ≠ .str "completed" := by
  intro r hr hsel hs
  have := List.any_eq_false.mp h r hr
  simp [hsel, hs] at this

theorem allowedFields_not_status (f : String) (hf : f ∈ allowedFields) :
    f ≠ "status" ∧ f ≠ "id" := by
  simp only [allowedFields, List.mem_cons, List.mem_singleton, List.not_mem_nil, or_false] at hf
  rcases hf with rfl | rfl | rfl | rfl | rfl | rfl <;> decide

theorem runAll_keeps (J : JsonLib) (G : Gateway) (defaults : Row) (K : List String)
    (Φ : Row → Prop) (good : TripRequest → Prop)
    (hK : ∀ (r : Row) (sets : List (String × Json)),
      (∀ c ∈ K, c ∉ sets.map Prod.fst) → Φ r → Φ (r.assign sets))
    (hlife : ∀ c ∈ K, c ∉ ["acceptedDrivers", "status", "driverEmail", "assignedAt"])
    (hpatch : ∀ (body : Body) (f : String), good (.patch body) →
      body.get "field" = some (.str f) → f ∈ allowedFields → f ∉ K)
    (hcreate : ∀ insertId now trip, good (.create insertId now trip) →
      Φ (insertedRow defaults insertId (addTripsValues now trip))) :
    ∀ (qs : List TripRequest) (t : Table), (∀ q ∈ qs, good q) →
      neverReopens J G defaults qs t = true →
      (∀ r ∈ t, r "status" ≠ .str "completed" → Φ r) →
      ∀ r ∈ qs.foldl (fun t q => q.run J G defaults t) t,
        r "status" ≠ .str "completed" → Φ r := by
  intro qs
  induction qs with
  | nil => exact fun t _ _ inv => inv
  | cons q qs ih =>
    intro t hgood hnever inv
    simp only [neverReopens, Bool.and_eq_true, Bool.not_eq_true'] at hnever
    obtain ⟨hre, hrest⟩ := hnever
    have hq := hgood q (List.mem_cons_self _ _)
    refine ih (q.run J G defaults t) (fun q' hq' => hgood q' (List.mem_cons_of_mem _ hq'))
      hrest ?_
    have life : ∀ (u : Update),
        (∀ c ∈ u.sets.map Prod.fst,
          c ∈ ["acceptedDrivers", "status", "driverEmail", "assignedAt"]) →
        ∀ r : Row, Φ r → Φ (r.assign u.sets) :=
      fun u hu r hr => hK r u.sets (fun c hc hcu => hlife c hc (hu c hcu)) hr
    cases q with
    | create insertId now trip =>
      intro r hr hs
      simp only [TripRequest.run, addTrips, List.mem_append, List.mem_singleton] at hr
      rcases hr with hr | rfl
      · exact inv r hr hs
      · exact hcreate insertId now trip hq
    | accept tripId body =>
      simp only [TripRequest.run]
      rcases accept_shape J G tripId body t with h | ⟨text, h⟩
      · rw [h]
        exact inv
      · rw [h]
        exact Update.run_keeps G _ t Φ (Or.inl ⟨life _ (by simp [acceptUpdate]),
          not_completed_of_any G _ t hre⟩) inv
    | assign isoNow body =>
      simp only [TripRequest.run]
      rcases assign_shape G isoNow body t with h | ⟨d, a, h⟩
      · rw [h]
        exact inv
      · rw [h]
        exact Update.run_keeps G _ t Φ (Or.inl ⟨life _ (by simp),
          not_completed_of_any G _ t hre⟩) inv
    | start tripId =>
      simp only [TripRequest.run]
      rw [start_shape]
      exact Update.run_keeps G _ t Φ (Or.inl ⟨life _ (by simp),
        not_completed_of_any G _ t hre⟩) inv
    | patch body =>
      simp only [TripRequest.run]
      rcases patch_shape G body t with h | ⟨f, v, hf, hfield, h⟩
      · rw [h]
        exact inv
      · rw [h]
        refine Update.run_keeps G _ t Φ (Or.inr (Or.inl ⟨fun r hr => hK r _ ?_ hr, fun r => ?_⟩)) inv
        · intro c hc hcf
          simp only [List.map_cons, List.map_nil, List.mem_singleton] at hcf
          subst hcf
          exact hpatch body c hq hfield hf hc
        · exact Row.assign_of_not_mem _ r "status" (by
            simp only [List.map_cons, List.map_nil, List.mem_singleton]
            exact fun h => (allowedFields_not_status f hf).1 h.symm)
    | complete now tripId body =>
      simp only [TripRequest.run]
      rcases complete_shape G now tripId body t with h | ⟨sets, h, hdone⟩
      · rw [h]
        exact inv
      · rw [h]
        exact Update.run_keeps G _ t Φ (Or.inr (Or.inr hdone)) inv

theorem metered_not_lifecycle (c : String) (hc : c ∈ meteredColumns) :
    c ∉ ["acceptedDrivers", "status", "driverEmail", "assignedAt"] := by
  simp only [meteredColumns, List.mem_cons, List.mem_singleton, List.not_mem_nil, or_false] at hc
  rcases hc with rfl | rfl | rfl | rfl | rfl | rfl | rfl | rfl | rfl <;> decide

theorem insertedRow_metered (defaults : Row) (insertId : Int) (now : Json) (trip : Body)
    (c : String) (hc : c ∈ meteredColumns) (hl : c ≠ "luggage") :
    insertedRow defaults insertId (addTripsValues now trip) c = defaults c := by
  have hid : c ≠ "id" := by
    simp only [meteredColumns, List.mem_cons, List.mem_singleton, List.not_mem_nil, or_false]
      at hc
    rcases hc with rfl | rfl | rfl | rfl | rfl | rfl | rfl | rfl | rfl <;> decide
  have hnot : c ∉ (addTripsValues now trip).map Prod.fst := by
    simp only [meteredColumns, List.mem_cons, List.mem_singleton, List.not_mem_nil, or_false]
      at hc
    rcases hc with rfl | rfl | rfl | rfl | rfl | rfl | rfl | rfl | rfl <;>
      first
      | exact absurd rfl hl
      | (simp only [addTripsValues, List.map_cons, List.map_nil]; decide)
  rw [insertedRow, Row.assign_of_not_mem _ _ c hnot, Function.update_apply, if_neg hid]

theorem insertedRow_id_luggage (defaults : Row) (insertId : Int) (now : Json) (trip : Body) :
    insertedRow defaults insertId (addTripsValues now trip) "id" = .num insertId ∧
    insertedRow defaults insertId (addTripsValues now trip) "luggage" =
      (if truthy (trip.get "luggage") = true then sqlParam (trip.get "luggage")
        else .num 0) := by
  constructor
  · simp [insertedRow, addTripsValues, Row.assign, Function.update_apply]
  · simp [insertedRow, addTripsValues, Row.assign, Function.update_apply, sqlParam_orElse]

/-- C16, amended. In every state reached from the empty table through any sequence of create,
accept-intent, administrative assignment, start, Field Patch and Complete in which accept-intent,
assignment and start are never applied to the id of a trip that is `completed`, where the schema
leaves the metered columns `NULL` in a new trip, every trip whose status is not `completed` has:
`NULL` in `totalKm`, `finalKm` and `finalBill`; `NULL` in each of `startMeter`, `endMeter`, `pet`,
`toll` and `hills` that no Field Patch of the sequence names; and, when no Field Patch of the
sequence names `luggage`, in `luggage` what a create of the sequence with the id of the trip
stored: the supplied luggage when it is truthy, else `0`. -/
theorem metered_until_completed (J : JsonLib) (G : Gateway) (defaults : Row)
    (reqs : List TripRequest)
    (hdef : ∀ c ∈ meteredColumns, defaults c = .null)
    (hnever : neverReopens J G defaults reqs [] = true) :
    ∀ r ∈ runAll J G defaults reqs, r "status" ≠ .str "completed" →
      (∀ c ∈ meteredColumns, c ≠ "luggage" →
        (c ∈ allowedFields → ∀ q ∈ reqs, q.patches c = false) → r c = .null) ∧
      ((∀ q ∈ reqs, q.patches "luggage" = false) →
        ∃ insertId now trip, TripRequest.create insertId now trip ∈ reqs ∧
          r "id" = .num insertId ∧
          r "luggage" = (if truthy (trip.get "luggage") = true then
            sqlParam (trip.get "luggage") else .num 0)) := by
  intro r hr hs
  constructor
  · intro c hc hl hpat
    refine runAll_keeps J G defaults [c] (fun r => r c = .null)
      (fun q => c ∈ allowedFields → q.patches c = false) ?_ ?_ ?_ ?_ reqs []
      (fun q hq hca => hpat hca q hq) hnever (fun r hr => absurd hr (List.not_mem_nil _)) r hr hs
    · intro r sets hsets hr
      show r.assign sets c = .null
      rw [Row.assign_of_not_mem sets r c (hsets c (List.mem_singleton.mpr rfl))]
      exact hr
    · intro c' hc'
      rw [List.mem_singleton.mp hc']
      exact metered_not_lifecycle c hc
    · intro body f hgood hfield hf hfc
      rw [List.mem_singleton] at hfc
      subst hfc
      have := hgood hf
      simp [TripRequest.patches, hfield] at this
    · intro insertId now trip _
      show insertedRow defaults insertId (addTripsValues now trip) c = .null
      rw [insertedRow_metered defaults insertId now trip c hc hl]
      exact hdef c hc
  · intro hpat
    refine runAll_keeps J G defaults ["id", "luggage"]
      (fun r => ∃ insertId now trip, TripRequest.create insertId now trip ∈ reqs ∧
        r "id" = .num insertId ∧
        r "luggage" = (if truthy (trip.get "luggage") = true then
          sqlParam (trip.get "luggage") else .num 0))
      (fun q => q ∈ reqs ∧ q.patches "luggage" = false) ?_ ?_ ?_ ?_ reqs []
      (fun q hq => ⟨hq, hpat q hq⟩) hnever (fun r hr => absurd hr (List.not_mem_nil _)) r hr hs
    · rintro r sets hsets ⟨insertId, now, trip, hmem, hid, hlug⟩
      refine ⟨insertId, now, trip, hmem, ?_, ?_⟩
      · rw [Row.assign_of_not_mem sets r "id" (hsets "id" (by simp))]
        exact hid
      · rw [Row.assign_of_not_mem sets r "luggage" (hsets "luggage" (by simp))]
        exact hlug
    · intro c hc
      simp only [List.mem_cons, List.mem_singleton, List.not_mem_nil, or_false] at hc
      rcases hc with rfl | rfl <;> decide
    · intro body f hgood hfield hf hfK
      simp only [List.mem_cons, List.mem_singleton, List.not_mem_nil, or_false] at hfK
      rcases hfK with rfl | rfl
      · exact (allowedFields_not_status "id" hf).2 rfl
      · have := hgood.2
        simp [TripRequest.patches, hfield] at this
    · intro insertId now trip hgood
      exact ⟨insertId, now, trip, hgood.1,
        (insertedRow_id_luggage defaults insertId now trip).1,
        (insertedRow_id_luggage defaults insertId now trip).2⟩

/-- C16, amended, instance: after create with luggage 3, accept-intent, assignment, a Field Patch
of `startMeter` and start, the one trip has status `WIP`, `NULL` in `finalBill` and in `pet`, and
the luggage 3 of its create. -/
theorem metered_until_completed_witness :
    (runAll JsonLib.node Gateway.byText Row.nulls
        [.create 1 (.str "2025-03-04 05:06:07") [("luggage", .num 3)],
         .accept "1" [("driverEmail", .str "a@x.com")],
         .assign "2025-03-04T05:06:07.000Z" [("tripId", .num 1), ("driverEmail", .str "a@x.com")],
         .patch [("tripId", .num 1), ("field", .str "startMeter"), ("value", .num 10)],
         .start "1"]).map (fun r => [r "id", r "status", r "startMeter"]) =
      [[.num 1, .str "WIP", .num 10]] ∧
    ∀ r ∈ runAll JsonLib.node Gateway.byText Row.nulls
        [.create 1 (.str "2025-03-04 05:06:07") [("luggage", .num 3)],
         .accept "1" [("driverEmail", .str "a@x.com")],
         .assign "2025-03-04T05:06:07.000Z" [("tripId", .num 1), ("driverEmail", .str "a@x.com")],
         .patch [("tripId", .num 1), ("field", .str "startMeter"), ("value", .num 10)],
         .start "1"],
      r "status" ≠ .str "completed" →
        r "finalBill" = .null ∧ r "pet" = .null ∧ r "luggage" = .num 3 := by
  refine ⟨by decide, fun r hr hs => ?_⟩
  have h := metered_until_completed JsonLib.node Gateway.byText Row.nulls
    [.create 1 (.str "2025-03-04 05:06:07") [("luggage", .num 3)],
     .accept "1" [("driverEmail", .str "a@x.com")],
     .assign "2025-03-04T05:06:07.000Z" [("tripId", .num 1), ("driverEmail", .str "a@x.com")],
     .patch [("tripId", .num 1), ("field", .str "startMeter"), ("value", .num 10)],
     .start "1"]
    (fun _ _ => rfl) (by decide) r hr hs
  refine ⟨h.1 "finalBill" (by decide) (by decide) (fun hca => absurd hca (by decide)),
    h.1 "pet" (by decide) (by decide) (fun _ => by decide), ?_⟩
  obtain ⟨insertId, now, trip, hmem, _, hlug⟩ := h.2 (by decide)
  simp only [List.mem_cons, List.mem_singleton, List.not_mem_nil, or_false,
    TripRequest.create.injEq, reduceCtorEq, false_or] at hmem
  obtain ⟨_, _, rfl⟩ := hmem
  rw [hlug]
  decide

/-- C15, as stated, fails: for the driver email `a_b@x.com`, the accepted-trips query returns the
accepted trip of `acb@x.com`, and the in-progress query the trip in progress of `acb@x.com`,
whose `driverEmail` does not contain `a_b@x.com`. -/
theorem like_underscore :
    ((acceptedTrips "a_b@x.com" [Row.assigned 1 "accept" "acb@x.com"]).results.map
      fun r => [r "id", r "status", r "driverEmail"]) =
      [[.num 1, .str "accept", .str "acb@x.com"]] ∧
    ((wipTrips "a_b@x.com" [Row.assigned 1 "WIP" "acb@x.com"]).results.map
      fun r => [r "id", r "status", r "driverEmail"]) =
      [[.num 1, .str "WIP", .str "acb@x.com"]] ∧
    containsLiterally (.str "acb@x.com") "a_b@x.com" = false := by
  decide

theorem likeMatch_percent_cons (p s : List Char) :
    likeMatch ('%' :: p) s = s.tails.any (likeMatch p) := by
  rw [likeMatch.eq_def]
  simp

theorem likeMatch_ordinary (c : Char) (p s : List Char) (h : likeSpecial c = false) :
    likeMatch (c :: p) s =
      match s with
      | [] => false
      | d :: t => decide (d = c) && likeMatch p t := by
  simp only [likeSpecial, Bool.or_eq_false_iff, decide_eq_false_iff_not] at h
  obtain ⟨⟨h₁, h₂⟩, h₃⟩ := h
  rw [likeMatch.eq_def]
  simp only [h₁, h₂, h₃, if_false]

theorem likeMatch_literal (x : List Char) (hx : ∀ c ∈ x, likeSpecial c = false)
    (q s : List Char) :
    likeMatch (x ++ q) s = (startsWith x s && likeMatch q (s.drop x.length)) := by
  induction x generalizing s with
  | nil => simp [startsWith]
  | cons c x ih =>
    have hc := hx c (List.mem_cons_self _ _)
    have ih' := ih (fun d hd => hx d (List.mem_cons_of_mem _ hd))
    rw [List.cons_append, likeMatch_ordinary c _ _ hc]
    cases s with
    | nil => simp [startsWith]
    | cons d t =>
      simp only [startsWith, List.length_cons, List.drop_succ_cons, ih' t]
      by_cases hdc : d = c
      · subst hdc
        simp
      · have hcd : ¬ c = d := fun h => hdc h.symm
        simp [hdc, hcd]

theorem likeMatch_percent (t : List Char) : likeMatch ['%'] t = true := by
  rw [likeMatch_percent_cons, List.any_eq_true]
  exact ⟨[], (List.mem_tails _ _).mpr List.nil_suffix, rfl⟩

theorem any_tails_startsWith (x s : List Char) :
    s.tails.any (startsWith x) = isSubstr x s := by
  induction s with
  | nil => simp [List.tails, isSubstr]
  | cons a s ih => simp only [List.tails, List.any_cons, isSubstr, ih]

theorem likeMatch_contains (x : String) (hx : ∀ c ∈ x.toList, likeSpecial c = false)
    (s : List Char) :
    likeMatch ("%" ++ x ++ "%").toList s = isSubstr x.toList s := by
  have hp : ("%" ++ x ++ "%").toList = '%' :: (x.toList ++ ['%']) := by
    simp [String.toList, String.data_append]
  rw [hp, likeMatch_percent_cons, ← any_tails_startsWith]
  congr 1
  funext t
  rw [likeMatch_literal x.toList hx, likeMatch_percent, Bool.and_true]

theorem sqlLike_contains (x : String) (hx : ∀ c ∈ x.toList, likeSpecial c = false) (v : Json) :
    sqlLike v ("%" ++ x ++ "%") = containsLiterally v x := by
  cases v <;> simp only [sqlLike, containsLiterally, likeMatch_contains x hx]

/-- C15, amended. For every trips table and every driver email `x` that holds none of the
characters `%`, `_` and `\`: the accepted-trips query, when `x` is not empty, returns exactly the
trips whose status is `accept` and whose stored `driverEmail` contains `x` literally as a
contiguous substring, and the in-progress query returns exactly the trips whose status is `WIP`
and whose stored `driverEmail` contains `x` so. -/
theorem queries_literal (x : String) (trips : Table)
    (hx : ∀ c ∈ x.toList, likeSpecial c = false) :
    (x ≠ "" → acceptedTrips x trips = .rows 200 (trips.filter fun r =>
      decide (r "status" = .str "accept") && containsLiterally (r "driverEmail") x)) ∧
    wipTrips x trips = .rows 200 (trips.filter fun r =>
      decide (r "status" = .str "WIP") && containsLiterally (r "driverEmail") x) := by
  constructor
  · intro hne
    have ht : truthy (some (.str x)) = true := by simp [truthy, hne]
    simp only [acceptedTrips, ht, Bool.not_true, Bool.false_eq_true, if_false, statusIs,
      sqlLike_contains x hx]
  · simp only [wipTrips, statusIs, sqlLike_contains x hx]

/-- C15, amended, instance: for `ann@x.com` the accepted-trips query returns the accepted trip
of `ann@x.com` and also the one of `joann@x.com`, whose text contains it, and not the trip in
progress. -/
theorem queries_literal_witness :
    ((acceptedTrips "ann@x.com" [Row.assigned 1 "accept" "ann@x.com",
        Row.assigned 2 "accept" "joann@x.com", Row.assigned 3 "WIP" "ann@x.com",
        Row.assigned 4 "accept" "bob@x.com"]).results.map fun r => r "id") =
      [.num 1, .num 2] := by
  rw [(queries_literal "ann@x.com" [Row.assigned 1 "accept" "ann@x.com",
    Row.assigned 2 "accept" "joann@x.com", Row.assigned 3 "WIP" "ann@x.com",
    Row.assigned 4 "accept" "bob@x.com"] (by decide)).1 (by decide)]
  decide

/-- C12, what the code does. For every registration request with `name`, `email`, `phoneNumber`
and `password` truthy, the controller `registerDriver` answers 201 and adds one row whose
`password` column is the supplied password itself: no hash is taken. -/
theorem registerDriver_stores_plaintext (defaults : Record) (insertId : Int) (body : Body)
    (drivers : List Record) (p : Json)
    (hn : truthy (body.get "name") = true) (he : truthy (body.get "email") = true)
    (hph : truthy (body.get "phoneNumber") = true)
    (hp : body.get "password" = some p) (htp : truthy (some p) = true) :
    ∃ row, registerDriver defaults insertId body drivers =
        (some ⟨201, .obj [("message", .str "Driver registered successfully"),
          ("driverId", .num insertId)]⟩, drivers ++ [row]) ∧
      Body.get row "password" = some p := by
  have hg : (!truthy (body.get "name") || !truthy (body.get "email") ||
      !truthy (body.get "phoneNumber") || !truthy (body.get "password")) = false := by
    simp [hn, he, hph, hp, htp]
  simp only [registerDriver, hg, Bool.false_eq_true, if_false]
  refine ⟨_, rfl, ?_⟩
  simp [insertedRecord, Body.get, hp, sqlParam]

/-- C12, the failing input: the password `secret` is stored as `secret` by the controller, while
the handler of `src/index.js` stores what the hasher returns for it. -/
theorem registerDriver_stores_plaintext_witness :
    (∃ row, registerDriver [] 7
        [("name", .str "Asha"), ("email", .str "a@x.com"), ("phoneNumber", .str "98"),
          ("password", .str "secret")] [] =
        (some ⟨201, .obj [("message", .str "Driver registered successfully"),
          ("driverId", .num 7)]⟩, [] ++ [row]) ∧
      Body.get row "password" = some (.str "secret")) ∧
    (register Hasher.toy 5 [] 7
        [("name", .str "Asha"), ("email", .str "a@x.com"), ("phoneNumber", .str "98"),
          ("password", .str "secret")] []).2.map (fun r => Body.get r "password") =
      [Hasher.toy.hash (some (.str "secret")) 10 5 |>.map Json.str] :=
  ⟨registerDriver_stores_plaintext [] 7
    [("name", .str "Asha"), ("email", .str "a@x.com"), ("phoneNumber", .str "98"),
      ("password", .str "secret")] [] (.str "secret")
    (by decide) (by decide) (by decide) (by decide) (by decide), by decide⟩

theorem any_filter_of_imp (l : List Record) (c p : Record → Bool)
    (h : ∀ r, p r = true → c r = true) : (l.filter c).any p = l.any p := by
  induction l with
  | nil => rfl
  | cons r l ih =>
    by_cases hc : c r = true
    · simp only [List.filter_cons, hc, if_true, List.any_cons, ih]
    · have hp : p r = false := by
        cases hpr : p r with
        | false => rfl
        | true => exact absurd (h r hpr) hc
      simp only [List.filter_cons, hc, Bool.false_eq_true, if_false, List.any_cons, hp,
        Bool.false_or, ih]

theorem strictEq_some_eq (v w : Json) (h : strictEq (some v) (some w) = true) : v = w := by
  cases v <;> cases w <;> simp_all [strictEq]

theorem strictEq_param (E : Engine)
    (hE : ∀ v w : Json, strictEq (some v) (some w) = true → w ≠ .null → E.eq v w = true)
    (v : Json) (x : Option Json) (hx : x ≠ some .null)
    (h : strictEq (some v) x = true) : E.eq v (sqlParam x) = true := by
  cases x with
  | none => cases v <;> simp [strictEq] at h
  | some w =>
    exact hE v w h fun hw => hx (by rw [hw])

/-- C13, as stated, fails: with one stored driver who registered without `rcNumber`, the
boolean for `rcNumber` of a request with `rcNumber` `null` is `true` when the request carries the
email of that driver and `false` when it carries another email: it depends on the other
fields. -/
theorem checkExists_null_depends :
    checkExists Engine.byText
        [("email", .str "a@x.com"), ("phoneNumber", .str "77"), ("rcNumber", .null)]
        (register Hasher.toy 5 [] 1
          [("name", .str "Asha"), ("email", .str "a@x.com"), ("phoneNumber", .str "98"),
            ("password", .str "secret")] []).2 =
      ⟨200, .obj [("email", .bool true), ("phoneNumber", .bool false), ("rcNumber", .bool true),
        ("insuranceNumber", .bool false)]⟩ ∧
    checkExists Engine.byText
        [("email", .str "z@x.com"), ("phoneNumber", .str "77"), ("rcNumber", .null)]
        (register Hasher.toy 5 [] 1
          [("name", .str "Asha"), ("email", .str "a@x.com"), ("phoneNumber", .str "98"),
            ("password", .str "secret")] []).2 =
      ⟨200, .obj [("email", .bool false), ("phoneNumber", .bool false), ("rcNumber", .bool false),
        ("insuranceNumber", .bool false)]⟩ := by
  decide

/-- C13, amended. For every drivers table and every check-exists request none of whose four
values is `null`, with a store for which a column value that is `===` to a value other than
`NULL` is also equal to it in `WHERE column = ?`: each of the four booleans of the response is
`true` exactly when some stored driver has that one column `===` to the requested value,
whatever the other three are. -/
theorem checkExists_spec (E : Engine) (body : Body) (drivers : List Record)
    (hE : ∀ v w : Json, strictEq (some v) (some w) = true → w ≠ .null → E.eq v w = true)
    (hn : ∀ f ∈ ["email", "phoneNumber", "rcNumber", "insuranceNumber"],
      body.get f ≠ some .null) :
    checkExists E body drivers = ⟨200, .obj
      [("email", .bool (drivers.any fun r =>
          strictEq (some (r.col "email")) (body.get "email"))),
       ("phoneNumber", .bool (drivers.any fun r =>
          strictEq (some (r.col "phone")) (body.get "phoneNumber"))),
       ("rcNumber", .bool (drivers.any fun r =>
          strictEq (some (r.col "rc_number")) (body.get "rcNumber"))),
       ("insuranceNumber", .bool (drivers.any fun r =>
          strictEq (some (r.col "insurance_number")) (body.get "insuranceNumber")))]⟩ := by
  have h₁ := hn "email" (by simp)
  have h₂ := hn "phoneNumber" (by simp)
  have h₃ := hn "rcNumber" (by simp)
  have h₄ := hn "insuranceNumber" (by simp)
  simp only [checkExists]
  rw [any_filter_of_imp drivers _ (fun r => strictEq (some (r.col "email")) (body.get "email"))
      (fun r h => by simp [strictEq_param E hE _ _ h₁ h]),
    any_filter_of_imp drivers _
      (fun r => strictEq (some (r.col "phone")) (body.get "phoneNumber"))
      (fun r h => by simp [strictEq_param E hE _ _ h₂ h]),
    any_filter_of_imp drivers _
      (fun r => strictEq (some (r.col "rc_number")) (body.get "rcNumber"))
      (fun r h => by simp [strictEq_param E hE _ _ h₃ h]),
    any_filter_of_imp drivers _
      (fun r => strictEq (some (r.col "insurance_number")) (body.get "insuranceNumber"))
      (fun r h => by simp [strictEq_param E hE _ _ h₄ h])]

theorem Engine.byText_of_strictEq (v w : Json) (h : strictEq (some v) (some w) = true)
    (hw : w ≠ .null) : Engine.byText.eq v w = true := by
  have hvw := strictEq_some_eq v w h
  subst hvw
  simp [Engine.byText, hw]

/-- C13, amended, instance: the email of one driver and the phone of another are both found,
and a registration number nobody has is not. -/
theorem checkExists_spec_witness :
    checkExists Engine.byText
        [("email", .str "a@x.com"), ("phoneNumber", .str "55"), ("rcNumber", .str "KA01")]
        [[("id", .num 1), ("email", .str "a@x.com"), ("phone", .str "98"),
            ("rc_number", .null), ("insurance_number", .null)],
         [("id", .num 2), ("email", .str "b@x.com"), ("phone", .str "55"),
            ("rc_number", .str "TN02"), ("insurance_number", .null)]] =
      ⟨200, .obj [("email", .bool true), ("phoneNumber", .bool true), ("rcNumber", .bool false),
        ("insuranceNumber", .bool false)]⟩ := by
  rw [checkExists_spec Engine.byText _ _ Engine.byText_of_strictEq (by decide)]
  decide

theorem some_sqlParam_of_truthy (x : Option Json) (h : truthy x = true) :
    some (sqlParam x) = x := by
  cases x with
  | none => simp [truthy] at h
  | some v => rfl

/-- C14, as stated, fails: a Create Bill request that carries `driverEmail`, `customerName` and
`finalBill` (as `0`) is answered 400 and nothing is inserted. -/
theorem createBill_zero_finalBill :
    Body.get [("driverEmail", .str "d@x.com"), ("customerName", .str "Ravi"),
      ("finalBill", .num 0)] "finalBill" = some (.num 0) ∧
    createBill (fun x => x) (.str "2025-03-04 05:06:07") [] 1
        [("driverEmail", .str "d@x.com"), ("customerName", .str "Ravi"), ("finalBill", .num 0)]
        [] =
      (Response.message 400 "Required fields are missing", []) := by
  decide

/-- C14, amended. Create Bill: when `driverEmail`, `customerName` or `finalBill` is absent or
falsy (`0`, the empty text, `null`, `false`), the handler answers 400 and inserts nothing. When
the three are truthy it answers 201 with the id of the new bill and adds exactly one row, which
carries the supplied `driverEmail`, `customerName` and `finalBill`, has in every numeric charge
column the supplied value when it is truthy and `0` otherwise, and in every descriptive column
the supplied value when it is truthy and `NULL` otherwise. -/
theorem createBill_spec (dateOf : Json → Json) (now : Json) (defaults : Record)
    (insertId : Int) (data : Body) (bills : List Record) :
    ((truthy (data.get "driverEmail") = false ∨ truthy (data.get "customerName") = false ∨
        truthy (data.get "finalBill") = false) →
      createBill dateOf now defaults insertId data bills =
        (Response.message 400 "Required fields are missing", bills)) ∧
    (truthy (data.get "driverEmail") = true → truthy (data.get "customerName") = true →
      truthy (data.get "finalBill") = true →
      ∃ row, createBill dateOf now defaults insertId data bills =
          (⟨201, jsObject [("message", some (.str "Bill saved successfully")),
            ("billId", some (.num insertId)), ("tripId", data.get "tripId")]⟩,
            bills ++ [row]) ∧
        Body.get row "id" = some (.num insertId) ∧
        Body.get row "driverEmail" = data.get "driverEmail" ∧
        Body.get row "customerName" = data.get "customerName" ∧
        Body.get row "finalBill" = data.get "finalBill" ∧
        (∀ c ∈ numericCharges, Body.get row c =
          some (if truthy (data.get c) = true then sqlParam (data.get c) else .num 0)) ∧
        (∀ c ∈ descriptiveFields, Body.get row c =
          some (if truthy (data.get c) = true then sqlParam (data.get c) else .null))) := by
  constructor
  · intro h
    have hg : (!truthy (data.get "driverEmail") || !truthy (data.get "customerName") ||
        !truthy (data.get "finalBill")) = true := by
      rcases h with h | h | h <;> simp [h]
    simp only [createBill, hg, if_true]
  · intro h₁ h₂ h₃
    have hg : (!truthy (data.get "driverEmail") || !truthy (data.get "customerName") ||
        !truthy (data.get "finalBill")) = false := by
      simp [h₁, h₂, h₃]
    simp only [createBill, hg, Bool.false_eq_true, if_false]
    refine ⟨_, rfl, ?_, ?_, ?_, ?_, ?_, ?_⟩
    · simp [insertedRecord, Body.get]
    · refine Eq.trans ?_ (some_sqlParam_of_truthy _ h₁)
      simp [insertedRecord, Body.get]
    · refine Eq.trans ?_ (some_sqlParam_of_truthy _ h₂)
      simp [insertedRecord, Body.get]
    · refine Eq.trans ?_ (some_sqlParam_of_truthy _ h₃)
      simp [insertedRecord, Body.get]
    · intro c hc
      simp only [numericCharges, List.mem_cons, List.mem_singleton, List.not_mem_nil, or_false]
        at hc
      rcases hc with rfl | rfl | rfl | rfl | rfl | rfl | rfl | rfl | rfl | rfl | rfl | rfl | rfl <;>
        simp [insertedRecord, Body.get, sqlParam_orElse]
    · intro c hc
      simp only [descriptiveFields, List.mem_cons, List.mem_singleton, List.not_mem_nil,
        or_false] at hc
      rcases hc with rfl | rfl | rfl | rfl | rfl | rfl <;>
        simp [insertedRecord, Body.get, sqlParam_orElse]

/-- C14, amended, instance: a bill with the three required values only is answered 201 with the
id 1. -/
theorem createBill_spec_witness :
    ∃ row, createBill (fun x => x) (.str "2025-03-04 05:06:07") [] 1
        [("driverEmail", .str "d@x.com"), ("customerName", .str "Ravi"),
          ("finalBill", .num 500)] [] =
        (⟨201, .obj [("message", .str "Bill saved successfully"), ("billId", .num 1)]⟩,
          [] ++ [row]) ∧
      Body.get row "tollCharge" = some (.num 0) ∧ Body.get row "phone" = some .null := by
  obtain ⟨row, h, _, _, _, _, hnum, hdesc⟩ :=
    (createBill_spec (fun x => x) (.str "2025-03-04 05:06:07") [] 1
      [("driverEmail", .str "d@x.com"), ("customerName", .str "Ravi"),
        ("finalBill", .num 500)] []).2 (by decide) (by decide) (by decide)
  exact ⟨row, h, hnum "tollCharge" (by decide), hdesc "phone" (by decide)⟩

/-- C11, as stated, fails: in a drivers table that already holds a driver with the email
`a@x.com` (password `old`), a second registration with that email and the password `new` is
stored (201), the hasher accepts `new` against the hash stored for it, and yet the login with
`a@x.com` and `new` is answered 401: it is checked against the first row with that email. -/
theorem login_second_registration :
    (register Hasher.toy 6 [] 2
        [("name", .str "Bina"), ("email", .str "a@x.com"), ("phoneNumber", .str "99"),
          ("password", .str "new")]
        (register Hasher.toy 5 [] 1
          [("name", .str "Asha"), ("email", .str "a@x.com"), ("phoneNumber", .str "98"),
            ("password", .str "old")] []).2).1 =
      some ⟨201, .obj [("message", .str "Driver registered successfully"),
        ("driverId", .num 2)]⟩ ∧
    Hasher.toy.compare (some (.str "new"))
      ((Hasher.toy.hash (some (.str "new")) 10 6).map Json.str) = some true ∧
    login Engine.byText Hasher.toy signToy [("email", .str "a@x.com"), ("password", .str "new")]
        (register Hasher.toy 6 [] 2
          [("name", .str "Bina"), ("email", .str "a@x.com"), ("phoneNumber", .str "99"),
            ("password", .str "new")]
          (register Hasher.toy 5 [] 1
            [("name", .str "Asha"), ("email", .str "a@x.com"), ("phoneNumber", .str "98"),
              ("password", .str "old")] []).2).2 =
      some (Response.message 401 "Invalid email or password") := by
  decide

theorem login_rows (E : Engine) (x : Json) (drivers : List Record) (row : Record)
    (hfresh : ∀ r ∈ drivers, E.eq (r.col "email") x = false)
    (hrow : E.eq (row.col "email") x = true) :
    (drivers ++ [row]).filter (fun r => E.eq (r.col "email") x) = [row] := by
  rw [List.filter_append, List.filter_eq_nil_iff.mpr (fun r hr => by simp [hfresh r hr])]
  simp [List.filter_cons, hrow]

theorem login_new_row (E : Engine) (H : Hasher) (sign : Json → String) (lb : Body)
    (drivers : List Record) (row : Record)
    (hfresh : ∀ r ∈ drivers, E.eq (r.col "email") (sqlParam (lb.get "email")) = false)
    (hrow : E.eq (row.col "email") (sqlParam (lb.get "email")) = true) :
    login E H sign lb (drivers ++ [row]) =
      match H.compare (lb.get "password") (Body.get row "password") with
      | none => none
      | some isMatch =>
        if !isMatch then some (Response.message 401 "Invalid email or password")
        else some ⟨200, jsObject [("token", some (.str (sign (jsObject
          [("id", Body.get row "id"), ("email", Body.get row "email")])))),
          ("user", some (.obj row))]⟩ := by
  simp only [login]
  rw [login_rows E _ drivers row hfresh hrow]

/-- C11, amended. For every drivers table in which no stored driver has the email of the request
(for the comparison of the store, which finds the email it has just stored), and every
registration with `name`, `email`, `phoneNumber` and `password` truthy whose password the hasher
hashes: the registration is answered 201; then, when the hasher's `compare` accepts that
password against the hash and rejects every other text, a login with the same email and password
is answered 200 with a token for the new driver, and a login with the same email and any other
text as password is answered 401. -/
theorem login_after_register (E : Engine) (H : Hasher) (sign : Json → String) (salt : Nat)
    (defaults : Record) (insertId : Int) (body : Body) (drivers : List Record) (h : String)
    (hn : truthy (body.get "name") = true) (he : truthy (body.get "email") = true)
    (hph : truthy (body.get "phoneNumber") = true)
    (hpw : truthy (body.get "password") = true)
    (hh : H.hash (body.get "password") 10 salt = some h)
    (hfresh : ∀ r ∈ drivers, E.eq (r.col "email") (sqlParam (body.get "email")) = false)
    (hself : E.eq (sqlParam (body.get "email")) (sqlParam (body.get "email")) = true)
    (hacc : H.compare (body.get "password") (some (.str h)) = some true)
    (hrej : ∀ s : String, some (Json.str s) ≠ body.get "password" →
      H.compare (some (.str s)) (some (.str h)) = some false) :
    (register H salt defaults insertId body drivers).1 =
      some ⟨201, .obj [("message", .str "Driver registered successfully"),
        ("driverId", .num insertId)]⟩ ∧
    (∀ lb : Body, lb.get "email" = body.get "email" →
      lb.get "password" = body.get "password" →
      ∃ user, login E H sign lb (register H salt defaults insertId body drivers).2 =
        some ⟨200, .obj [("token", .str (sign (.obj [("id", .num insertId),
          ("email", sqlParam (body.get "email"))]))), ("user", user)]⟩) ∧
    (∀ (lb : Body) (s : String), lb.get "email" = body.get "email" →
      lb.get "password" = some (.str s) → some (Json.str s) ≠ body.get "password" →
      login E H sign lb (register H salt defaults insertId body drivers).2 =
        some (Response.message 401 "Invalid email or password")) := by
  have hg : (!truthy (body.get "name") || !truthy (body.get "email") ||
      !truthy (body.get "phoneNumber") || !truthy (body.get "password")) = false := by
    simp [hn, he, hph, hpw]
  have hreg : register H salt defaults insertId body drivers =
      (some ⟨201, .obj [("message", .str "Driver registered successfully"),
        ("driverId", .num insertId)]⟩,
        drivers ++ [insertedRecord defaults insertId
          [("name", sqlParam (body.get "name")),
           ("email", sqlParam (body.get "email")),
           ("phone", sqlParam (body.get "phoneNumber")),
           ("password", .str h),
           ("rc_number", sqlParam (body.get "rcNumber")),
           ("fc_expiry", sqlParam (body.get "fcDate")),
           ("insurance_number", sqlParam (body.get "insuranceNumber")),
           ("insurance_expiry", sqlParam (body.get "insuranceExpiryDate")),
           ("driving_license", sqlParam (body.get "drivingLicense")),
           ("dl_expiry", sqlParam (body.get "drivingLicenseExpiryDate"))]]) := by
    simp only [register, hg, Bool.false_eq_true, if_false, hh]
  rw [hreg]
  refine ⟨rfl, ?_, ?_⟩
  · intro lb hle hlp
    refine ⟨.obj (insertedRecord defaults insertId
      [("name", sqlParam (body.get "name")),
       ("email", sqlParam (body.get "email")),
       ("phone", sqlParam (body.get "phoneNumber")),
       ("password", .str h),
       ("rc_number", sqlParam (body.get "rcNumber")),
       ("fc_expiry", sqlParam (body.get "fcDate")),
       ("insurance_number", sqlParam (body.get "insuranceNumber")),
       ("insurance_expiry", sqlParam (body.get "insuranceExpiryDate")),
       ("driving_license", sqlParam (body.get "drivingLicense")),
       ("dl_expiry", sqlParam (body.get "drivingLicenseExpiryDate"))]), ?_⟩
    rw [login_new_row E H sign lb drivers _ (by rw [hle]; exact hfresh)
      (by rw [hle]; simpa [Record.col, insertedRecord, Body.get, sqlParam] using hself)]
    simp [insertedRecord, Body.get, hlp, hacc, jsObject]
  · intro lb s hle hlp hne
    rw [login_new_row E H sign lb drivers _ (by rw [hle]; exact hfresh)
      (by rw [hle]; simpa [Record.col, insertedRecord, Body.get, sqlParam] using hself)]
    simp [insertedRecord, Body.get, hlp, hrej s hne]

theorem afterDollar_append (a b : List Char) (ha : '$' ∉ a) :
    afterDollar (a ++ '$' :: b) = b := by
  induction a with
  | nil => simp [afterDollar]
  | cons c a ih =>
    simp only [List.mem_cons, not_or] at ha
    have hc : ¬ c = '$' := fun h => ha.1 h.symm
    simp [afterDollar, hc, ih ha.2]

theorem Hasher.toy_rejects (p : String) (salt : Nat) (s : String)
    (hd : '$' ∉ (toString salt).toList) (hne : s ≠ p) :
    Hasher.toy.compare (some (.str s)) (some (.str (toString salt ++ "$" ++ p))) =
      some false := by
  have hl : (toString salt ++ "$" ++ p).toList = (toString salt).toList ++ '$' :: p.toList := by
    simp [String.toList, String.data_append]
  have hps : ¬ p.toList = s.toList := fun h => hne (String.ext h).symm
  simp only [Hasher.toy, hl, afterDollar_append _ _ hd, hps, decide_False]

/-- C11, amended, instance: after the registration of `a@x.com` with the password `secret` in an
empty table, the login with `secret` is answered 200 and the login with `wrong` 401. -/
theorem login_after_register_witness :
    (∃ user, login Engine.byText Hasher.toy signToy
        [("email", .str "a@x.com"), ("password", .str "secret")]
        (register Hasher.toy 5 [] 1
          [("name", .str "Asha"), ("email", .str "a@x.com"), ("phoneNumber", .str "98"),
            ("password", .str "secret")] []).2 =
      some ⟨200, .obj [("token", .str (signToy (.obj [("id", .num 1),
        ("email", sqlParam (Body.get [("name", .str "Asha"), ("email", .str "a@x.com"),
          ("phoneNumber", .str "98"), ("password", .str "secret")] "email"))]))),
        ("user", user)]⟩) ∧
    login Engine.byText Hasher.toy signToy
        [("email", .str "a@x.com"), ("password", .str "wrong")]
        (register Hasher.toy 5 [] 1
          [("name", .str "Asha"), ("email", .str "a@x.com"), ("phoneNumber", .str "98"),
            ("password", .str "secret")] []).2 =
      some (Response.message 401 "Invalid email or password") :=
  have h := login_after_register Engine.byText Hasher.toy signToy 5 [] 1
    [("name", .str "Asha"), ("email", .str "a@x.com"), ("phoneNumber", .str "98"),
      ("password", .str "secret")] [] "5$secret"
    (by decide) (by decide) (by decide) (by decide) (by decide)
    (fun _ hr => absurd hr (List.not_mem_nil _)) (by decide) (by decide)
    (fun s hs => Hasher.toy_rejects "secret" 5 s (by decide) (fun hsp => hs (by rw [hsp]; rfl)))
  ⟨h.2.1 [("email", .str "a@x.com"), ("password", .str "secret")] (by decide) (by decide),
    h.2.2 [("email", .str "a@x.com"), ("password", .str "wrong")] "wrong" (by decide)
      (by decide) (by decide)⟩

end RoyalDptxi
